import Mathlib

/-!
Verification of the geometric subdivision engine of the `luminary`
repository (files `src/luminary/geometry/{point,primitives,triangle,facet,beam}.py`),
as a shallow embedding over exact rationals.

Floating point numbers are modelled by `ℚ`.  The single transcendental
operation used by the source, `math.sqrt`, is modelled by an explicit
oracle parameter `sq : ℚ → ℚ` threaded to exactly the places where the
source calls `sqrt` (`Point.distance`, `Vector.length` and their
consumers).  Theorems that depend on square roots behaving like the real
square root state that dependency as explicit hypotheses on `sq` at the
values actually used; concrete witnesses use `ratSqrt` below, a
kernel-computable floor square root that agrees with the real square root
on perfect squares of rationals.

Python exceptions are modelled by `Except String`: the `...E` definitions
(`edgeResultE`, `generateBeamsE`, `facetInitE`, `createFacetsE`) carry the
source's failure semantics — in particular the `TypeError` raised because
`Facet._generate_beams` calls `Beam(...)` without the
`face_index`/`facet_index` arguments `Beam.__init__` requires, which
aborts every beam-producing construction.  The `...Fixed` definitions
state what the slicing loop computes under the explicit repair of that one
call site (the owner indices supplied); they model no behaviour the
running source exhibits and are used only to verify the loop's internal
stride and parity logic modulo that repair.
-/

namespace Luminary

/-- Numeric tolerance used by the source for all degeneracy checks (`1e-10`). -/
def eps : ℚ := 1 / 10 ^ 10

/-- Largest `k ≤ bound` with `k*k ≤ n` (structural recursion on `bound`,
so it reduces inside the kernel). -/
def natSqrtAux : ℕ → ℕ → ℕ
  | 0, _ => 0
  | k + 1, n => if (k + 1) * (k + 1) ≤ n then k + 1 else natSqrtAux k n

/-- Kernel-computable floor square root on `ℕ`. -/
def natSqrtE (n : ℕ) : ℕ := natSqrtAux n n

/-- Kernel-computable square-root oracle on `ℚ`, exact on perfect squares
of nonnegative rationals (numerator and denominator perfect squares in
lowest terms); used to instantiate the oracle at concrete witnesses. -/
def ratSqrt (q : ℚ) : ℚ := (natSqrtE q.num.toNat : ℚ) / (natSqrtE q.den : ℚ)

instance {ε α : Type} [DecidableEq ε] [DecidableEq α] :
    DecidableEq (Except ε α) := fun a b =>
  match a, b with
  | .error e, .error f =>
    match decEq e f with
    | isTrue h => isTrue (h ▸ rfl)
    | isFalse h => isFalse (fun c => h (Except.error.inj c))
  | .ok x, .ok y =>
    match decEq x y with
    | isTrue h => isTrue (h ▸ rfl)
    | isFalse h => isFalse (fun c => h (Except.ok.inj c))
  | .error _, .ok _ => isFalse (fun c => Except.noConfusion c)
  | .ok _, .error _ => isFalse (fun c => Except.noConfusion c)

/-- `Point` from `point.py`: coordinates plus an optional color tag.
The polar fields `r`/`theta` of the source involve `sqrt`/`atan2` and are
not read by any code modelled here, so they are not stored. -/
structure Pt where
  x : ℚ
  y : ℚ
  color : Option String := none
deriving DecidableEq

instance : Inhabited Pt := ⟨⟨0, 0, none⟩⟩

/-- `Vector` from `primitives.py`. -/
structure Vec where
  x : ℚ
  y : ℚ
deriving DecidableEq

instance : Inhabited Vec := ⟨⟨0, 0⟩⟩

/-- Squared distance between two points: the argument the source passes to
`math.sqrt` in `Point.distance`. -/
def Pt.dist2 (p o : Pt) : ℚ :=
  (o.x - p.x) ^ 2 + (o.y - p.y) ^ 2

/-- `Point.distance`: `sqrt((o.x-x)**2 + (o.y-y)**2)`, with the square root
taken by the oracle `sq`. -/
def Pt.distance (sq : ℚ → ℚ) (p o : Pt) : ℚ :=
  sq (Pt.dist2 p o)

/-- `Point.midpoint_to`: the result carries no color. -/
def Pt.midpointTo (p o : Pt) : Pt :=
  ⟨(p.x + o.x) / 2, (p.y + o.y) / 2, none⟩

/-- `Point.__sub__` on another `Point`: `Point - Point = Vector`. -/
def Pt.subPt (p o : Pt) : Vec :=
  ⟨p.x - o.x, p.y - o.y⟩

/-- `Point.__add__` with a `Vector`: result has no color. -/
def Pt.addVec (p : Pt) (v : Vec) : Pt :=
  ⟨p.x + v.x, p.y + v.y, none⟩

/-- `Point.__sub__` with a `Vector`: `Point - Vector = Point`, no color. -/
def Pt.subVec (p : Pt) (v : Vec) : Pt :=
  ⟨p.x - v.x, p.y - v.y, none⟩

/-- Squared length of a vector: the argument `Vector.length` passes to `sqrt`. -/
def Vec.len2 (v : Vec) : ℚ :=
  v.x * v.x + v.y * v.y

/-- `Vector.length`: `sqrt(x*x + y*y)` via the oracle. -/
def Vec.length (sq : ℚ → ℚ) (v : Vec) : ℚ :=
  sq (Vec.len2 v)

/-- `Vector.__add__`. -/
def Vec.add (v w : Vec) : Vec := ⟨v.x + w.x, v.y + w.y⟩

/-- `Vector.__sub__`. -/
def Vec.sub (v w : Vec) : Vec := ⟨v.x - w.x, v.y - w.y⟩

/-- `Vector.__mul__` / `__rmul__` by a scalar. -/
def Vec.smul (c : ℚ) (v : Vec) : Vec := ⟨v.x * c, v.y * c⟩

/-- `Vector.__truediv__` by a scalar. -/
def Vec.divQ (v : Vec) (c : ℚ) : Vec := ⟨v.x / c, v.y / c⟩

/-- `Vector.unit_vector`: zero vector when the (oracle) length is zero,
otherwise the vector divided by its length. -/
def Vec.unitVector (sq : ℚ → ℚ) (v : Vec) : Vec :=
  if Vec.length sq v = 0 then ⟨0, 0⟩ else Vec.divQ v (Vec.length sq v)

/-- `Vector.perpendicular_counterclockwise`: rotate +90 degrees. -/
def Vec.perpCcw (v : Vec) : Vec := ⟨-v.y, v.x⟩

/-- `Vector.cross_product` (2-D scalar cross product). -/
def Vec.crossProduct (v w : Vec) : ℚ := v.x * w.y - v.y * w.x

/-- `LinearElement._line_intersection_t`: parametric intersection of the
lines through `(sp1,sp2)` and `(op1,op2)`; `none` when the direction
vectors are parallel within the `1e-10` tolerance. -/
def lineIntersectionT (sp1 sp2 op1 op2 : Pt) : Option (ℚ × ℚ) :=
  let vec1 := Pt.subPt sp2 sp1
  let vec2 := Pt.subPt op2 op1
  let denom := Vec.crossProduct vec1 vec2
  if |denom| < eps then none
  else
    let vec3 := Pt.subPt op1 sp1
    some (Vec.crossProduct vec3 vec2 / denom, Vec.crossProduct vec3 vec1 / denom)

/-- The dynamic type of the `other` operand of an intersection call
(`isinstance` dispatch in the source). -/
inductive ElemKind where
  | seg
  | ray
  | line
deriving DecidableEq

/-- Validity of the `other`-side parameter `t2`, per the source's
`isinstance` checks shared by `Segment`/`Ray`/`Line.intersection`. -/
def otherBoundsOk (k : ElemKind) (t2 : ℚ) : Bool :=
  match k with
  | .seg => decide (-eps ≤ t2 ∧ t2 ≤ 1 + eps)
  | .ray => decide (-eps ≤ t2)
  | .line => true

/-- The intersection point `p1 + t1*(p2-p1)` computed at the end of each
`intersection` method. -/
def pointAt (p1 p2 : Pt) (t : ℚ) : Pt :=
  ⟨p1.x + t * (p2.x - p1.x), p1.y + t * (p2.y - p1.y), none⟩

/-- `Segment` from `primitives.py`. -/
structure Seg where
  p1 : Pt
  p2 : Pt
deriving DecidableEq

/-- `Segment.length`. -/
def Seg.lengthQ (sq : ℚ → ℚ) (s : Seg) : ℚ :=
  Pt.distance sq s.p1 s.p2

/-- `Segment.intersection`: self-side parameter restricted to `[0,1]`
(with tolerance) unless `ignoreBounds`. -/
def Seg.intersectionK (s : Seg) (o1 o2 : Pt) (k : ElemKind)
    (ignoreBounds : Bool) : Option Pt :=
  match lineIntersectionT s.p1 s.p2 o1 o2 with
  | none => none
  | some (t1, t2) =>
    if ignoreBounds then some (pointAt s.p1 s.p2 t1)
    else if ¬(-eps ≤ t1 ∧ t1 ≤ 1 + eps) then none
    else if ¬(otherBoundsOk k t2 = true) then none
    else some (pointAt s.p1 s.p2 t1)

/-- `Ray` from `primitives.py`: starts at `p1`, passes through `p2`. -/
structure Ray where
  p1 : Pt
  p2 : Pt
deriving DecidableEq

/-- `Ray.from_point_and_direction`: the second defining point is
`start + unit(direction)`. -/
def Ray.fromPointAndDirection (sq : ℚ → ℚ) (start : Pt) (dir : Vec) : Ray :=
  ⟨start, start.addVec (Vec.unitVector sq dir)⟩

/-- `Ray.intersection`: self-side parameter restricted to `t1 ≥ -1e-10`
unless `ignoreBounds`. -/
def Ray.intersectionK (r : Ray) (o1 o2 : Pt) (k : ElemKind)
    (ignoreBounds : Bool) : Option Pt :=
  match lineIntersectionT r.p1 r.p2 o1 o2 with
  | none => none
  | some (t1, t2) =>
    if ignoreBounds then some (pointAt r.p1 r.p2 t1)
    else if t1 < -eps then none
    else if ¬(otherBoundsOk k t2 = true) then none
    else some (pointAt r.p1 r.p2 t1)

/-- `Angle.bisector` from `primitives.py`, for the angle at `apex` with
arms towards `point1` and `point2`. -/
def angleBisector (sq : ℚ → ℚ) (apex point1 point2 : Pt) : Ray :=
  let vec1 := Pt.subPt point1 apex
  let vec2 := Pt.subPt point2 apex
  let unit1 := Vec.unitVector sq vec1
  let unit2 := Vec.unitVector sq vec2
  if Vec.length sq vec1 = 0 ∨ Vec.length sq vec2 = 0 then
    Ray.fromPointAndDirection sq apex ⟨1, 0⟩
  else
    let bis := Vec.add unit1 unit2
    if Vec.length sq bis = 0 then
      Ray.fromPointAndDirection sq apex (Vec.perpCcw unit1)
    else
      Ray.fromPointAndDirection sq apex bis

/-- The crossing test of one iteration of `Point.is_inside_polygon`:
`((yi > y) != (yj > y)) and (x < (xj - xi) * (y - yi) / (yj - yi) + xi)`. -/
def crossingFlag (p vi vj : Pt) : Bool :=
  (decide (vi.y > p.y) != decide (vj.y > p.y))
    && decide (p.x < (vj.x - vi.x) * (p.y - vi.y) / (vj.y - vi.y) + vi.x)

/-- One iteration of the ray-casting loop of `Point.is_inside_polygon`:
state is `(inside, j)`; `i` indexes the current vertex. -/
def insideStep (p : Pt) (vs : List Pt) (st : Bool × ℕ) (i : ℕ) : Bool × ℕ :=
  (if crossingFlag p (vs.getD i default) (vs.getD st.2 default)
    then !st.1 else st.1, i)

/-- `Point.is_inside_polygon`: ray casting with the even-odd rule;
`j` starts at `n-1` and trails `i`. -/
def isInsidePolygon (p : Pt) (vs : List Pt) : Bool :=
  if vs.isEmpty then false
  else ((List.range vs.length).foldl (insideStep p vs) (false, vs.length - 1)).1

/-- Guarded variant of `crossingFlag` that reports `none` whenever the
crossing test would divide by zero, i.e. whenever the division
`(y - yi) / (yj - yi)` is reached with `yj - yi = 0`.  In the source the
division is syntactically guarded by the short-circuit `and`, so it is
evaluated only when `(yi > y) != (yj > y)`. -/
def crossingFlagChecked (p vi vj : Pt) : Option Bool :=
  if decide (vi.y > p.y) != decide (vj.y > p.y) then
    if vj.y - vi.y = 0 then none
    else some (decide (p.x < (vj.x - vi.x) * (p.y - vi.y) / (vj.y - vi.y) + vi.x))
  else some false

/-- Division-checked variant of `insideStep`. -/
def insideStepChecked (p : Pt) (vs : List Pt) (st : Bool × ℕ) (i : ℕ) :
    Option (Bool × ℕ) :=
  (crossingFlagChecked p (vs.getD i default) (vs.getD st.2 default)).map
    (fun cond => (if cond then !st.1 else st.1, i))

/-- Division-checked run of the ray-casting loop: `none` iff some
iteration would divide by zero. -/
def isInsidePolygonChecked (p : Pt) (vs : List Pt) : Option Bool :=
  if vs.isEmpty then some false
  else
    ((List.range vs.length).foldlM (insideStepChecked p vs)
      (false, vs.length - 1)).map Prod.fst

/-- `Polygon` from `primitives.py`. -/
structure Polygon where
  vertices : List Pt
deriving DecidableEq

/-- `Polygon.is_inside`: delegates to the point's ray-casting test. -/
def Polygon.isInside (poly : Polygon) (p : Pt) : Bool :=
  isInsidePolygon p poly.vertices

/-- `OrientedSegment` as used throughout the beam pipeline: the labelled
endpoints are always exactly `port` and `starboard` (the source stores a
two-entry label map and asserts this label set). -/
structure OSeg where
  port : Pt
  starboard : Pt
deriving DecidableEq

/-- The underlying `Segment` of an oriented segment (`port` was inserted
first in every construction site, so it is `p1`). -/
def OSeg.toSeg (e : OSeg) : Seg := ⟨e.port, e.starboard⟩

/-- `Beam._calculate_vertices` from `beam.py`: the 4- or 5-sided beam
polygon.  The `_ => []` arm is unreachable through `Beam.__init__`, which
validates that there are exactly 1 or 2 extents. -/
def beamCalcVertices (sq : ℚ → ℚ) (extents : List OSeg) (anchor : Pt)
    (sv : Vec) : List Pt :=
  let halfWidth := Vec.smul (1 / 2) sv
  let baselinePort := anchor.subVec halfWidth
  let baselineStarboard := anchor.addVec halfWidth
  match extents with
  | [e] => [baselinePort, baselineStarboard, e.starboard, e.port]
  | [e0, e1] =>
    let portDist0 := Pt.distance sq baselinePort e0.port
    let portDist1 := Pt.distance sq baselinePort e1.port
    let starboardDist0 := Pt.distance sq baselineStarboard e0.starboard
    let starboardDist1 := Pt.distance sq baselineStarboard e1.starboard
    let closerPort : ℕ := if portDist0 < portDist1 then 0 else 1
    let closerStarboard : ℕ := if starboardDist0 < starboardDist1 then 0 else 1
    if closerPort = closerStarboard then
      let e := if closerPort = 0 then e0 else e1
      [baselinePort, baselineStarboard, e.starboard, e.port]
    else
      let portNearest := (if closerPort = 0 then e0 else e1).port
      let starboardNearest := (if closerStarboard = 0 then e0 else e1).starboard
      let inter :=
        match Seg.intersectionK e0.toSeg e1.port e1.starboard .seg false with
        | some q => q
        | none => e0.port.midpointTo e1.port
      [baselinePort, baselineStarboard, starboardNearest, inter, portNearest]
  | _ => []

/-- The state of a constructed `Beam` as produced at the call site in
`Facet._generate_beams` — which supplies exactly these arguments (and, in
particular, does not supply `face_index`/`facet_index`; that argument
mismatch is modelled separately by `beamInit`/`generateBeamsE`). -/
structure BeamObj where
  extents : List OSeg
  beamIndex : ℕ
  edgeIndex : ℕ
  anchor : Pt
  starboardVector : Vec
  parity : ℕ
  forwardVector : Vec
  vertices : List Pt
deriving DecidableEq

/-- Beam construction from the fields supplied by `Facet._generate_beams`:
derived `forward_vector` (perpendicular to starboard) and eagerly computed
polygon vertices, per `Beam.__init__`. -/
def mkBeam (sq : ℚ → ℚ) (extents : List OSeg) (beamIndex edgeIndex : ℕ)
    (anchor : Pt) (sv : Vec) (parity : ℕ) : BeamObj :=
  { extents := extents
    beamIndex := beamIndex
    edgeIndex := edgeIndex
    anchor := anchor
    starboardVector := sv
    parity := parity
    forwardVector := Vec.perpCcw sv
    vertices := beamCalcVertices sq extents anchor sv }

/-- `Beam.get_fill_color_multiplier`: `1.2` for parity 0, `0.8` otherwise. -/
def getFillColorMultiplier (b : BeamObj) : ℚ :=
  if b.parity = 0 then 6 / 5 else 4 / 5

/-- `Beam.get_basis_point`: `anchor + 0.5 * forward_vector`. -/
def getBasisPoint (b : BeamObj) : Pt :=
  b.anchor.addVec (Vec.smul (1 / 2) b.forwardVector)

/-- A fully constructed `Beam` including the owner ids required by
`Beam.__init__`'s signature. -/
structure BeamFull where
  core : BeamObj
  faceIndex : ℤ
  facetIndex : ℤ
deriving DecidableEq

/-- `beam_id` tuple `(face_index, facet_index, edge_index, beam_index)`. -/
def BeamFull.beamId (b : BeamFull) : ℤ × ℤ × ℕ × ℕ :=
  (b.faceIndex, b.facetIndex, b.core.edgeIndex, b.core.beamIndex)

/-- `Beam.__init__` with Python's argument binding made explicit: the
parameters `face_index` and `facet_index` have no defaults, so a call that
omits them (`none`) raises `TypeError` before the body runs; with both
supplied, the body validates the extent count (raising
`NotImplementedError` otherwise) and builds the beam. -/
def beamInit (sq : ℚ → ℚ) (extents : List OSeg) (beamIndex edgeIndex : ℕ)
    (anchor : Pt) (sv : Vec) (parity : ℕ)
    (faceIndex facetIndex : Option ℤ) : Except String BeamFull :=
  match faceIndex, facetIndex with
  | some f, some ft =>
    if extents.length = 1 ∨ extents.length = 2 then
      .ok ⟨mkBeam sq extents beamIndex edgeIndex anchor sv parity, f, ft⟩
    else .error "NotImplementedError: only 1 or 2 extents supported"
  | _, _ =>
    .error "TypeError: Beam missing required arguments face_index and facet_index"

/-- `Facet._get_axis_of_symmetry`: the segment primary vertex → incenter. -/
def axisSeg (v inc : Pt) : Seg := ⟨v, inc⟩

/-- `Facet._get_edge_points` for the canonical edge order
`MAJOR_STARBOARD, MINOR_STARBOARD, MINOR_PORT, MAJOR_PORT` (facet
vertices in order: primary `v`, `m1`, incenter `inc`, `m2`). -/
def facetEdgeSeg (v m1 inc m2 : Pt) : ℕ → Seg
  | 0 => ⟨v, m1⟩
  | 1 => ⟨m1, inc⟩
  | 2 => ⟨inc, m2⟩
  | _ => ⟨m2, v⟩

/-- `Facet._get_edge_vector_counterclockwise`. -/
def facetEdgeVec (v m1 inc m2 : Pt) : ℕ → Vec
  | 0 => Pt.subPt m1 v
  | 1 => Pt.subPt inc m1
  | 2 => Pt.subPt m2 inc
  | _ => Pt.subPt v m2

/-- The two lateral bisectors of `Facet._generate_beams`: the "port"
bisector is the bisector of `Angle(vertices[3], vertices[0], vertices[2])`
(apex `m2`) and the "starboard" bisector that of
`Angle(vertices[1], vertices[2], vertices[0])` (apex `m1`), exactly as in
the source (whose inline comments label them the other way around). -/
def portBisector (sq : ℚ → ℚ) (v m1 inc m2 : Pt) : Ray :=
  angleBisector sq m2 v inc

def starboardBisector (sq : ℚ → ℚ) (v m1 inc m2 : Pt) : Ray :=
  angleBisector sq m1 inc v

/-- `close_bisector_ray` lookup table:
`[starboard, starboard, port, port]` over the canonical edge order. -/
def closeBisectorRay (sq : ℚ → ℚ) (v m1 inc m2 : Pt) (edgeIdx : ℕ) : Ray :=
  if edgeIdx ≤ 1 then starboardBisector sq v m1 inc m2
  else portBisector sq v m1 inc m2

/-- The per-edge beam loop of `Facet._generate_beams` *with the missing
call-site arguments repaired*: the source's `Beam(...)` call at the end of
each iteration omits the required `face_index`/`facet_index` and therefore
raises `TypeError` before one iteration completes (that actual behaviour
is `edgeResultE`/`generateBeamsE`); here the call is modelled as
completing the way `Beam.__init__` builds its state from the supplied
arguments (`mkBeam`), so that the loop's stride and parity logic can be
stated modulo that one repair.  `prevA`/`prevB` are the previous beam's
far axis/bisector intersections (stride optimization), `par` the running
parity.  The recursion counts the remaining iterations `r`; `k` is the
current `beam_idx`. -/
def beamLoopFixed (sq : ℚ → ℚ) (edgeStart : Pt) (edgeVector : Vec) (n : ℕ)
    (edgeIdx : ℕ) (sv : Vec) (axisStride bisStride : Vec) :
    ℕ → ℕ → Pt → Pt → ℕ → List BeamObj × ℕ
  | _, 0, _, _, par => ([], par)
  | k, r + 1, prevA, prevB, par =>
    let tStart : ℚ := (k : ℚ) / (n : ℚ)
    let tEnd : ℚ := ((k : ℚ) + 1) / (n : ℚ)
    let baselineStart := edgeStart.addVec (Vec.smul tStart edgeVector)
    let baselineEnd := edgeStart.addVec (Vec.smul tEnd edgeVector)
    let anchor := baselineStart.midpointTo baselineEnd
    let portAxis := prevA
    let portBis := prevB
    let starAxis := portAxis.addVec axisStride
    let starBis := portBis.addVec bisStride
    let extents : List OSeg := [⟨portAxis, starAxis⟩, ⟨portBis, starBis⟩]
    let beam := mkBeam sq extents k edgeIdx anchor sv par
    let rest := beamLoopFixed sq edgeStart edgeVector n edgeIdx sv axisStride
      bisStride (k + 1) r starAxis starBis (1 - par)
    (beam :: rest.1, rest.2)

/-- The four first-beam intersections of `Facet._generate_beams` for one
edge: forward rays from `t=0` and `t=1/beam_count`, intersected with the
axis segment and the edge's assigned lateral bisector ray.  The parameter
`ib` is the `ignore_bounds` flag passed to `intersection`; the source
passes nothing, i.e. `false`, while the spec text describes `true`. -/
def firstIntersections (sq : ℚ → ℚ) (v m1 inc m2 : Pt) (ib : Bool)
    (edgeIdx n : ℕ) :
    Option Pt × Option Pt × Option Pt × Option Pt :=
  let axis := axisSeg v inc
  let bis := closeBisectorRay sq v m1 inc m2 edgeIdx
  let edgeSegment := facetEdgeSeg v m1 inc m2 edgeIdx
  let edgeVector := facetEdgeVec v m1 inc m2 edgeIdx
  let edgeStart := edgeSegment.p1
  let edgeUnit := Vec.unitVector sq edgeVector
  let forwardUnit := Vec.perpCcw edgeUnit
  let firstBaselineStart := edgeStart
  let firstBaselineEnd := edgeStart.addVec (Vec.divQ edgeVector (n : ℚ))
  let firstPortRay := Ray.fromPointAndDirection sq firstBaselineStart forwardUnit
  let firstStarboardRay := Ray.fromPointAndDirection sq firstBaselineEnd forwardUnit
  (Ray.intersectionK firstPortRay axis.p1 axis.p2 .seg ib,
   Ray.intersectionK firstStarboardRay axis.p1 axis.p2 .seg ib,
   Ray.intersectionK firstPortRay bis.p1 bis.p2 .ray ib,
   Ray.intersectionK firstStarboardRay bis.p1 bis.p2 .ray ib)

/-- One edge of `Facet._generate_beams` under the call-site repair of
`beamLoopFixed` (the source as written raises `TypeError` instead of
completing the beam loop: `edgeResultE`), with `ignore_bounds` flag `ib`
for the first-beam intersections.  Result: `(none, par)` when the edge has
zero length (the source `continue`s without appending a list),
`(some [], par)` when a first-beam intersection is missing (the source
appends an empty list), otherwise `(some beams, par')`.
A `beam_count` of 0 would raise `ZeroDivisionError` in the source (see
`edgeResultE`); here rational division by zero is total and the theorems
are stated for positive counts. -/
def edgeResultFixed (sq : ℚ → ℚ) (v m1 inc m2 : Pt) (ib : Bool)
    (edgeIdx n par : ℕ) : Option (List BeamObj) × ℕ :=
  let edgeSegment := facetEdgeSeg v m1 inc m2 edgeIdx
  let edgeVector := facetEdgeVec v m1 inc m2 edgeIdx
  let edgeLength := Seg.lengthQ sq edgeSegment
  let edgeStart := edgeSegment.p1
  if edgeLength = 0 then (none, par)
  else
    let edgeUnit := Vec.unitVector sq edgeVector
    let beamWidth := edgeLength / (n : ℚ)
    let beamStarboardVector := Vec.smul beamWidth edgeUnit
    match firstIntersections sq v m1 inc m2 ib edgeIdx n with
    | (some fpa, some fsa, some fpb, some fsb) =>
      let axisStride := Pt.subPt fsa fpa
      let bisStride := Pt.subPt fsb fpb
      let r := beamLoopFixed sq edgeStart edgeVector n edgeIdx beamStarboardVector
        axisStride bisStride 0 n fpa fpb par
      (some r.1, r.2)
    | _ => (some [], par)

/-- One edge processed in the edge loop of `Facet._generate_beams`,
under the same call-site repair as `beamLoopFixed`: a zero-length edge
appends nothing (the source's bare `continue`), any other edge appends
exactly one list. -/
def genStepFixed (sq : ℚ → ℚ) (v m1 inc m2 : Pt) (ib : Bool)
    (acc : List (List BeamObj) × ℕ) (ic : ℕ × ℕ) :
    List (List BeamObj) × ℕ :=
  match edgeResultFixed sq v m1 inc m2 ib ic.1 ic.2 acc.2 with
  | (none, p) => (acc.1, p)
  | (some l, p) => (acc.1 ++ [l], p)

/-- `Facet._generate_beams` under the call-site repair of `beamLoopFixed`
(the function the source would compute if its `Beam(...)` call supplied
the required owner indices; as written it raises `TypeError` instead:
`generateBeamsE` below), with the `ignore_bounds` flag factored out. -/
def generateBeamsFixed (sq : ℚ → ℚ) (v m1 inc m2 : Pt) (ib : Bool)
    (counts : ℕ × ℕ × ℕ × ℕ) : List (List BeamObj) :=
  (([(0, counts.1), (1, counts.2.1), (2, counts.2.2.1),
     (3, counts.2.2.2)]).foldl (genStepFixed sq v m1 inc m2 ib) ([], 0)).1

/-- Whether all four first-beam intersections of an edge exist. -/
def firstsSomeB (sq : ℚ → ℚ) (v m1 inc m2 : Pt) (ib : Bool)
    (edgeIdx n : ℕ) : Bool :=
  match firstIntersections sq v m1 inc m2 ib edgeIdx n with
  | (some _, some _, some _, some _) => true
  | _ => false

/-- `j`-fold repeated addition of a stride vector (the accumulated value
of the stride optimization after `j` beams). -/
def iterAdd (p : Pt) (v : Vec) : ℕ → Pt
  | 0 => p
  | j + 1 => (iterAdd p v j).addVec v

/-- All beams of the repaired generation (`generateBeamsFixed` with the
source's default `ignore_bounds=False`) in creation order: edges in
canonical order, beam indices ascending. -/
def allBeamsFlatFixed (sq : ℚ → ℚ) (v m1 inc m2 : Pt)
    (counts : ℕ × ℕ × ℕ × ℕ) : List BeamObj :=
  (generateBeamsFixed sq v m1 inc m2 false counts).flatten

/-- An edge is *productive* when it has nonzero length and all four of its
first-beam intersections exist under the default bounds checks — exactly
the condition under which the source's beam loop runs and reaches the
`Beam(...)` call. -/
def edgeProductive (sq : ℚ → ℚ) (v m1 inc m2 : Pt) (edgeIdx n : ℕ) : Bool :=
  decide (Seg.lengthQ sq (facetEdgeSeg v m1 inc m2 edgeIdx) ≠ 0) &&
    firstsSomeB sq v m1 inc m2 false edgeIdx n

/-- One edge of `Facet._generate_beams` with Python's failure semantics:
`beam_count = 0` raises `ZeroDivisionError` at `beam_width =
edge_length/beam_count`; otherwise, once the four first-beam intersections
exist, the first iteration of the beam loop calls
`Beam(extent_segments=..., beam_index=..., edge_index=..., anchor_point=...,
starboard_vector=..., parity=...)` — without the required
`face_index`/`facet_index` arguments — so `Beam.__init__` raises
`TypeError` (cf. `beamInit` with `none`s). -/
def edgeResultE (sq : ℚ → ℚ) (v m1 inc m2 : Pt) (edgeIdx n par : ℕ) :
    Except String (Option (List BeamObj) × ℕ) :=
  let edgeSegment := facetEdgeSeg v m1 inc m2 edgeIdx
  let edgeLength := Seg.lengthQ sq edgeSegment
  if edgeLength = 0 then .ok (none, par)
  else if n = 0 then .error "ZeroDivisionError: division by zero"
  else
    match firstIntersections sq v m1 inc m2 false edgeIdx n with
    | (some _, some _, some _, some _) =>
      .error "TypeError: Beam missing required arguments face_index and facet_index"
    | _ => .ok (some [], par)

/-- One step of the edge loop of `Facet._generate_beams` with Python's
failure semantics: an exception already raised propagates, a zero-length
edge appends nothing, a missing-intersection edge appends an empty list,
and a productive edge raises (`edgeResultE`). -/
def genStepE (sq : ℚ → ℚ) (v m1 inc m2 : Pt)
    (acc : Except String (List (List BeamObj) × ℕ)) (ic : ℕ × ℕ) :
    Except String (List (List BeamObj) × ℕ) :=
  match acc with
  | .error e => .error e
  | .ok a =>
    match edgeResultE sq v m1 inc m2 ic.1 ic.2 a.2 with
    | .error e => .error e
    | .ok (none, p) => .ok (a.1, p)
    | .ok (some l, p) => .ok (a.1 ++ [l], p)

/-- `Facet._generate_beams` with Python's failure semantics (the first
exception aborts the whole construction). -/
def generateBeamsE (sq : ℚ → ℚ) (v m1 inc m2 : Pt)
    (counts : ℕ × ℕ × ℕ × ℕ) : Except String (List (List BeamObj)) :=
  match ([(0, counts.1), (1, counts.2.1), (2, counts.2.2.1),
          (3, counts.2.2.2)]).foldl (genStepE sq v m1 inc m2) (.ok ([], 0)) with
  | .error e => .error e
  | .ok a => .ok a.1

/-- A constructed `Facet` (from `facet.py`): role-ordered vertices, fill
color, label, centroid, and the per-edge beam lists built at init time. -/
structure FacetObj where
  vertexPrimary : Pt
  vertexPort : Pt
  vertexIncenter : Pt
  vertexStarboard : Pt
  color : String
  label : String
  centroid : Pt
  beams : List (List BeamObj)
deriving DecidableEq

/-- `Facet.__init__` with Python's failure semantics: it stores the
vertices in role order `(vertex, midpoint1, incenter, midpoint2)`,
computes the centroid, and then calls `self._generate_beams(beam_counts)`
— so any exception raised there (`generateBeamsE`) propagates and the
constructor never returns a `Facet`. -/
def facetInitE (sq : ℚ → ℚ) (vertex m1 inc m2 : Pt) (color label : String)
    (counts : ℕ × ℕ × ℕ × ℕ) : Except String FacetObj :=
  match generateBeamsE sq vertex m1 inc m2 counts with
  | .error e => .error e
  | .ok bs =>
    .ok { vertexPrimary := vertex
          vertexPort := m1
          vertexIncenter := inc
          vertexStarboard := m2
          color := color
          label := label
          centroid := ⟨(vertex.x + m1.x + inc.x + m2.x) / 4,
                       (vertex.y + m1.y + inc.y + m2.y) / 4, none⟩
          beams := bs }

/-- `Orientation` enum from `triangle.py`. -/
inductive Orientation where
  | apexward
  | nadirward
deriving DecidableEq

/-- `Triangle._calculate_incenter`: vertices weighted by opposite side
lengths, falling back to the unweighted centroid when the (oracle)
perimeter is zero. -/
def calcIncenter (sq : ℚ → ℚ) (p1 p2 p3 : Pt) : Pt :=
  let a := Seg.lengthQ sq ⟨p2, p3⟩
  let b := Seg.lengthQ sq ⟨p1, p3⟩
  let c := Seg.lengthQ sq ⟨p1, p2⟩
  let perimeter := a + b + c
  if perimeter = 0 then
    ⟨(p1.x + p2.x + p3.x) / 3, (p1.y + p2.y + p3.y) / 3, none⟩
  else
    ⟨(a * p1.x + b * p2.x + c * p3.x) / perimeter,
     (a * p1.y + b * p2.y + c * p3.y) / perimeter, none⟩

/-- `Triangle._determine_orientation`: count the vertices strictly closer
to the apex than the incenter is; exactly 1 means APEXWARD, anything else
NADIRWARD. -/
def determineOrientation (sq : ℚ → ℚ) (p1 p2 p3 apex inc : Pt) :
    Orientation :=
  let incenterToApex := Pt.distance sq inc apex
  let cnt := ([p1, p2, p3].filter
    (fun vt => decide (Pt.distance sq vt apex < incenterToApex))).length
  if cnt = 1 then .apexward else .nadirward

/-- Vertex lookup `self.vertices[i]` with the modular index arithmetic the
source applies to indices. -/
def triVert (p1 p2 p3 : Pt) (i : ℕ) : Pt :=
  match i % 3 with
  | 0 => p1
  | 1 => p2
  | _ => p3

/-- The `edge_midpoints` list of `Triangle.__init__`. -/
def triMidpoints (p1 p2 p3 : Pt) : List Pt :=
  [p1.midpointTo p2, p2.midpointTo p3, p3.midpointTo p1]

/-- Python's `min(..., key=...)` over three keyed entries in index order:
the first index attaining the minimum (later entries replace only when
strictly smaller). -/
def pyMinIdx (d0 d1 d2 : ℚ) : ℕ :=
  if d2 < (if d1 < d0 then d1 else d0) then 2
  else if d1 < d0 then 1 else 0

/-- Python's `max(..., key=...)` over three keyed entries in index order. -/
def pyMaxIdx (d0 d1 d2 : ℚ) : ℕ :=
  if d2 > (if d1 > d0 then d1 else d0) then 2
  else if d1 > d0 then 1 else 0

/-- `Triangle._get_counterclockwise_order`: starting from `startIdx`, take
the cyclic order, put it in counterclockwise order by the sign of the
cross product of the first two edge vectors, then swap the last two again
("Reverse to get clockwise" in the source). -/
def getCounterclockwiseOrder (p1 p2 p3 : Pt) (startIdx : ℕ) : List ℕ :=
  let i0 := startIdx
  let i1 := (startIdx + 1) % 3
  let i2 := (startIdx + 2) % 3
  let v1 := triVert p1 p2 p3 i0
  let v2 := triVert p1 p2 p3 i1
  let v3 := triVert p1 p2 p3 i2
  let crossP := Vec.crossProduct (Pt.subPt v2 v1) (Pt.subPt v3 v1)
  let ordered := if crossP > 0 then [i0, i1, i2] else [i0, i2, i1]
  match ordered with
  | [a, b, c] => [a, c, b]
  | l => l

/-- Modelled from the spec text of `facets()` for the vertex walk: "walk
the other two vertices in strict counterclockwise order (determined by the
sign of the 2-D cross product of the first two edge vectors from the
starting vertex; if clockwise, swap the last two)". -/
def specCcwOrder (p1 p2 p3 : Pt) (startIdx : ℕ) : List ℕ :=
  let i0 := startIdx
  let i1 := (startIdx + 1) % 3
  let i2 := (startIdx + 2) % 3
  let v1 := triVert p1 p2 p3 i0
  let v2 := triVert p1 p2 p3 i1
  let v3 := triVert p1 p2 p3 i2
  let crossP := Vec.crossProduct (Pt.subPt v2 v1) (Pt.subPt v3 v1)
  if crossP > 0 then [i0, i1, i2] else [i0, i2, i1]

/-- Starting-vertex selection of the (amended) facet-ordering claim:
nearest / farthest vertex from the apex depending on the code's
orientation, first index among ties, stated on squared distances (which
order exactly as real distances do). -/
def amendedStartIdx (sq : ℚ → ℚ) (p1 p2 p3 apex : Pt) : ℕ :=
  if determineOrientation sq p1 p2 p3 apex (calcIncenter sq p1 p2 p3) =
      .apexward then
    pyMinIdx (Pt.dist2 p1 apex) (Pt.dist2 p2 apex) (Pt.dist2 p3 apex)
  else
    pyMaxIdx (Pt.dist2 p1 apex) (Pt.dist2 p2 apex) (Pt.dist2 p3 apex)

/-- Facet vertex order of the amended claim: the cyclic order from the
starting vertex has its last two entries swapped exactly when the cross
product of the first two edge vectors is positive (counterclockwise) —
the opposite of the spec's rule — so the emitted order is clockwise by
the cross-product sign convention. -/
def amendedOrder (sq : ℚ → ℚ) (p1 p2 p3 apex : Pt) : List ℕ :=
  let s := amendedStartIdx sq p1 p2 p3 apex
  if 0 < Vec.crossProduct
      (Pt.subPt (triVert p1 p2 p3 ((s + 1) % 3)) (triVert p1 p2 p3 s))
      (Pt.subPt (triVert p1 p2 p3 ((s + 2) % 3)) (triVert p1 p2 p3 s))
  then [s, (s + 2) % 3, (s + 1) % 3]
  else [s, (s + 1) % 3, (s + 2) % 3]

/-- Facet fill color: `vertex.color or "black"` (Python `or` also treats
the empty string as falsy). -/
def facetColorOf (v : Pt) : String :=
  match v.color with
  | none => "black"
  | some c => if c = "" then "black" else c

/-- The `ordered_vertices` local of `Triangle._create_facets`: starting
vertex by orientation (closest/furthest to apex, Python `min`/`max` tie
semantics), vertex order from `_get_counterclockwise_order`.  This list
is fully computed before the first `Facet(...)` construction, so the
running source reaches it even though the constructions that follow
raise (`createFacetsE`). -/
def orderedVerts (sq : ℚ → ℚ) (p1 p2 p3 apex : Pt) : List ℕ :=
  let inc := calcIncenter sq p1 p2 p3
  let orient := determineOrientation sq p1 p2 p3 apex inc
  let d0 := Pt.distance sq p1 apex
  let d1 := Pt.distance sq p2 apex
  let d2 := Pt.distance sq p3 apex
  let startIdx := if orient = .apexward then pyMinIdx d0 d1 d2
    else pyMaxIdx d0 d1 d2
  getCounterclockwiseOrder p1 p2 p3 startIdx

/-- `Triangle._create_facets` with Python's failure semantics: the
ordered vertex walk (`orderedVerts`), labels `A..C` / `D..F` prefixed by
the triangle id, laterals from the adjacent edge midpoints; the `Facet`
constructions run sequentially and the first exception aborts the whole
list (`facetInitE`). -/
def createFacetsE (sq : ℚ → ℚ) (p1 p2 p3 apex : Pt) (triangleId : ℕ)
    (counts : ℕ × ℕ × ℕ × ℕ) : Except String (List FacetObj) :=
  let inc := calcIncenter sq p1 p2 p3
  let mids := triMidpoints p1 p2 p3
  let orient := determineOrientation sq p1 p2 p3 apex inc
  let ordered := orderedVerts sq p1 p2 p3 apex
  let labels := if orient = .apexward then ["A", "B", "C"] else ["D", "E", "F"]
  (ordered.zip labels).mapM (fun il =>
    let vt := triVert p1 p2 p3 il.1
    facetInitE sq vt (mids.getD (il.1 % 3) default) inc
      (mids.getD ((il.1 + 2) % 3) default)
      (facetColorOf vt) (toString triangleId ++ il.2) counts)

/-- The independent re-solve of the forward-ray/axis or
forward-ray/bisector intersection for the beam with baseline parameter
`t` along the edge (the spec's "brute-force definition" the stride
optimization is validated against), with the elements extended
infinitely. -/
def resolveAt (sq : ℚ → ℚ) (v m1 inc m2 : Pt) (edgeIdx : ℕ)
    (other : Ray ⊕ Seg) (t : ℚ) : Option Pt :=
  let edgeSegment := facetEdgeSeg v m1 inc m2 edgeIdx
  let edgeVector := facetEdgeVec v m1 inc m2 edgeIdx
  let edgeStart := edgeSegment.p1
  let edgeUnit := Vec.unitVector sq edgeVector
  let forwardUnit := Vec.perpCcw edgeUnit
  let base := edgeStart.addVec (Vec.smul t edgeVector)
  let fray := Ray.fromPointAndDirection sq base forwardUnit
  match other with
  | .inl r => Ray.intersectionK fray r.p1 r.p2 .ray true
  | .inr s => Ray.intersectionK fray s.p1 s.p2 .seg true

/-- Re-solve against the axis segment. -/
def axisResolve (sq : ℚ → ℚ) (v m1 inc m2 : Pt) (edgeIdx : ℕ) (t : ℚ) :
    Option Pt :=
  resolveAt sq v m1 inc m2 edgeIdx (.inr (axisSeg v inc)) t

/-- Re-solve against the edge's assigned lateral bisector ray. -/
def bisectorResolve (sq : ℚ → ℚ) (v m1 inc m2 : Pt) (edgeIdx : ℕ) (t : ℚ) :
    Option Pt :=
  resolveAt sq v m1 inc m2 edgeIdx
    (.inl (closeBisectorRay sq v m1 inc m2 edgeIdx)) t

/-- The displacement of an infinite-extension ray/element intersection
point when the ray's base point is displaced by `w` (direction `u` and
the other element `(o1,o2)` fixed): `w` minus its component that moves
the intersection along the ray. -/
def linShift (u w : Vec) (o1 o2 : Pt) : Vec :=
  Vec.sub w
    (Vec.smul
      (Vec.crossProduct w (Pt.subPt o2 o1) /
        Vec.crossProduct u (Pt.subPt o2 o1)) u)

/-- Faithfulness of the square-root oracle to the ordering of real square
roots at a pair of values: comparisons of `sq` outputs agree with
comparisons of the (squared) inputs.  The real `sqrt` is strictly
monotone on nonnegatives, so it satisfies this at every pair. -/
def OrdFaith (sq : ℚ → ℚ) (a b : ℚ) : Prop :=
  (sq a < sq b ↔ a < b) ∧ (sq b < sq a ↔ b < a)

instance (sq : ℚ → ℚ) (a b : ℚ) : Decidable (OrdFaith sq a b) := by
  unfold OrdFaith
  infer_instance

/-! ## Theorems -/

theorem crossingFlagChecked_eq (p vi vj : Pt) :
    crossingFlagChecked p vi vj = some (crossingFlag p vi vj) := by
  unfold crossingFlagChecked crossingFlag
  by_cases h1 : vi.y > p.y <;> by_cases h2 : vj.y > p.y
  · simp [h1, h2]
  · have hlt : vj.y < vi.y := lt_of_le_of_lt (not_lt.mp h2) h1
    have hne : vj.y - vi.y ≠ 0 := sub_ne_zero_of_ne (ne_of_lt hlt)
    simp [h1, h2, hne]
  · have hlt : vi.y < vj.y := lt_of_le_of_lt (not_lt.mp h1) h2
    have hne : vj.y - vi.y ≠ 0 := sub_ne_zero_of_ne (ne_of_gt hlt)
    simp [h1, h2, hne]
  · simp [h1, h2]

theorem insideStepChecked_eq (p : Pt) (vs : List Pt) (st : Bool × ℕ) (i : ℕ) :
    insideStepChecked p vs st i = some (insideStep p vs st i) := by
  unfold insideStepChecked insideStep
  rw [crossingFlagChecked_eq]
  rfl

theorem foldlM_insideStep (p : Pt) (vs : List Pt) :
    ∀ (L : List ℕ) (st : Bool × ℕ),
      L.foldlM (insideStepChecked p vs) st =
        some (L.foldl (insideStep p vs) st) := by
  intro L
  induction L with
  | nil => intro st; rfl
  | cons i L ih =>
    intro st
    simp [List.foldlM_cons, List.foldl_cons, insideStepChecked_eq, ih]

/-- C10: the ray-casting containment test is total (a structurally
terminating fold), returns `false` for an empty vertex list, and the
division in the crossing test is evaluated only under the guard
`(yi > y) != (yj > y)`, which forces `yj - yi ≠ 0` — so the
division-checked run never reports a division by zero, for every input
point and every vertex list (including repeated or collinear vertices);
`Polygon.is_inside` delegates to the same test. -/
theorem ray_casting_safe_total :
    (∀ (p : Pt) (vs : List Pt),
      isInsidePolygonChecked p vs = some (isInsidePolygon p vs)) ∧
    (∀ p : Pt, isInsidePolygon p [] = false) ∧
    (∀ (poly : Polygon) (p : Pt),
      Polygon.isInside poly p = isInsidePolygon p poly.vertices) := by
  refine ⟨?_, fun p => rfl, fun poly p => rfl⟩
  intro p vs
  unfold isInsidePolygonChecked isInsidePolygon
  by_cases h : vs.isEmpty <;> simp [h, foldlM_insideStep]

/-- C7: `_calculate_incenter` computes the side-length-weighted vertex
average `(a·A + b·B + c·C)/(a+b+c)` where `a`, `b`, `c` are the side
lengths opposite `A`, `B`, `C` (the nonnegative numbers whose squares are
the squared side lengths, as delivered by the square-root oracle), with
the unweighted centroid as fallback when the perimeter is zero. -/
theorem incenter_weighted_formula (sq : ℚ → ℚ) (p1 p2 p3 : Pt) (a b c : ℚ)
    (han : 0 ≤ a) (ha2 : a ^ 2 = Pt.dist2 p2 p3)
    (hsa : sq (Pt.dist2 p2 p3) = a)
    (hbn : 0 ≤ b) (hb2 : b ^ 2 = Pt.dist2 p1 p3)
    (hsb : sq (Pt.dist2 p1 p3) = b)
    (hcn : 0 ≤ c) (hc2 : c ^ 2 = Pt.dist2 p1 p2)
    (hsc : sq (Pt.dist2 p1 p2) = c) :
    calcIncenter sq p1 p2 p3 =
      if a + b + c = 0 then
        ⟨(p1.x + p2.x + p3.x) / 3, (p1.y + p2.y + p3.y) / 3, none⟩
      else
        ⟨(a * p1.x + b * p2.x + c * p3.x) / (a + b + c),
         (a * p1.y + b * p2.y + c * p3.y) / (a + b + c), none⟩ := by
  unfold calcIncenter Seg.lengthQ Pt.distance
  rw [hsa, hsb, hsc]

/-- Witness for C7 at the 3-4-5 right triangle `(0,0), (4,0), (0,3)`:
side lengths `a=5, b=3, c=4`; the incenter is exactly `(1,1)` (hence
within `1e-3` of it). -/
theorem incenter_weighted_formula_witness :
    calcIncenter ratSqrt ⟨0, 0, none⟩ ⟨4, 0, none⟩ ⟨0, 3, none⟩ =
      ⟨1, 1, none⟩ ∧
    |(calcIncenter ratSqrt ⟨0, 0, none⟩ ⟨4, 0, none⟩ ⟨0, 3, none⟩).x - 1|
      ≤ 1 / 1000 ∧
    |(calcIncenter ratSqrt ⟨0, 0, none⟩ ⟨4, 0, none⟩ ⟨0, 3, none⟩).y - 1|
      ≤ 1 / 1000 := by
  have h := incenter_weighted_formula ratSqrt
    ⟨0, 0, none⟩ ⟨4, 0, none⟩ ⟨0, 3, none⟩ 5 3 4
    (by norm_num) (by decide!) (by decide!)
    (by norm_num) (by decide!) (by decide!)
    (by norm_num) (by decide!) (by decide!)
  rw [if_neg (by norm_num)] at h
  rw [h]
  refine ⟨by norm_num, by norm_num, by norm_num⟩

/-- C8: `_determine_orientation` returns APEXWARD iff exactly one vertex
is strictly closer to the apex than (the supplied) incenter is, and
NADIRWARD in every other case (0, 2 or 3 vertices closer), where "strictly
closer" is stated on squared distances (equivalent to real distances) and
the oracle is assumed order-faithful at the compared pairs. -/
theorem orientation_apexward_iff (sq : ℚ → ℚ) (p1 p2 p3 apex inc : Pt)
    (h1 : sq (Pt.dist2 p1 apex) < sq (Pt.dist2 inc apex) ↔
      Pt.dist2 p1 apex < Pt.dist2 inc apex)
    (h2 : sq (Pt.dist2 p2 apex) < sq (Pt.dist2 inc apex) ↔
      Pt.dist2 p2 apex < Pt.dist2 inc apex)
    (h3 : sq (Pt.dist2 p3 apex) < sq (Pt.dist2 inc apex) ↔
      Pt.dist2 p3 apex < Pt.dist2 inc apex) :
    (determineOrientation sq p1 p2 p3 apex inc = .apexward ↔
      ([p1, p2, p3].filter
        (fun vt => decide (Pt.dist2 vt apex < Pt.dist2 inc apex))).length = 1) ∧
    (determineOrientation sq p1 p2 p3 apex inc = .nadirward ↔
      ([p1, p2, p3].filter
        (fun vt => decide (Pt.dist2 vt apex < Pt.dist2 inc apex))).length ≠ 1) := by
  have hfil :
      ([p1, p2, p3].filter
        (fun vt => decide (Pt.distance sq vt apex < Pt.distance sq inc apex))).length =
      ([p1, p2, p3].filter
        (fun vt => decide (Pt.dist2 vt apex < Pt.dist2 inc apex))).length := by
    simp only [List.filter, Pt.distance]
    rw [decide_eq_decide.mpr h1, decide_eq_decide.mpr h2, decide_eq_decide.mpr h3]
  simp only [determineOrientation]
  rw [hfil]
  by_cases hc :
      ([p1, p2, p3].filter
        (fun vt => decide (Pt.dist2 vt apex < Pt.dist2 inc apex))).length = 1 <;>
    simp [hc]

/-- Witness for C8: the 3-4-5 triangle with apex `(0,0)`; exactly one
vertex (the apex itself) is strictly closer to the apex than the incenter
`(1,1)`, and the orientation is APEXWARD. -/
theorem orientation_apexward_iff_witness :
    determineOrientation ratSqrt ⟨0, 0, none⟩ ⟨4, 0, none⟩ ⟨0, 3, none⟩
      ⟨0, 0, none⟩
      (calcIncenter ratSqrt ⟨0, 0, none⟩ ⟨4, 0, none⟩ ⟨0, 3, none⟩) =
      .apexward :=
  (orientation_apexward_iff ratSqrt ⟨0, 0, none⟩ ⟨4, 0, none⟩ ⟨0, 3, none⟩
    ⟨0, 0, none⟩ _ (by decide!) (by decide!) (by decide!)).1.mpr (by decide!)

theorem beamLoopFixed_length (sq : ℚ → ℚ) (E : Pt) (V : Vec) (n i : ℕ) (sv aS bS : Vec) :
    ∀ (r k : ℕ) (pA pB : Pt) (par : ℕ),
      (beamLoopFixed sq E V n i sv aS bS k r pA pB par).1.length = r := by
  intro r
  induction r with
  | zero => intro k pA pB par; rfl
  | succ r ih =>
    intro k pA pB par
    simp only [beamLoopFixed, List.length_cons, ih]

theorem beamLoopFixed_parityOut (sq : ℚ → ℚ) (E : Pt) (V : Vec) (n i : ℕ)
    (sv aS bS : Vec) :
    ∀ (r k : ℕ) (pA pB : Pt) (par : ℕ), par ≤ 1 →
      (beamLoopFixed sq E V n i sv aS bS k r pA pB par).2 = (par + r) % 2 := by
  intro r
  induction r with
  | zero =>
    intro k pA pB par hp
    show par = (par + 0) % 2
    omega
  | succ r ih =>
    intro k pA pB par hp
    show (beamLoopFixed sq E V n i sv aS bS (k+1) r (pA.addVec aS) (pB.addVec bS)
      (1 - par)).2 = (par + (r+1)) % 2
    rw [ih (k+1) (pA.addVec aS) (pB.addVec bS) (1 - par) (by omega)]
    omega

theorem iterAdd_shift (p : Pt) (v : Vec) :
    ∀ j : ℕ, iterAdd (p.addVec v) v j = iterAdd p v (j + 1) := by
  intro j
  induction j with
  | zero => rfl
  | succ j ih => simp only [iterAdd, ih]

theorem firstsSomeB_iff (sq : ℚ → ℚ) (v m1 inc m2 : Pt) (ib : Bool)
    (i n : ℕ) :
    firstsSomeB sq v m1 inc m2 ib i n = true ↔
      ∃ a b c d, firstIntersections sq v m1 inc m2 ib i n =
        (some a, some b, some c, some d) := by
  unfold firstsSomeB
  rcases hE : firstIntersections sq v m1 inc m2 ib i n with ⟨o1, o2, o3, o4⟩
  cases o1 <;> cases o2 <;> cases o3 <;> cases o4 <;> simp

theorem edgeResult_zeroLen (sq : ℚ → ℚ) (v m1 inc m2 : Pt) (ib : Bool)
    (i n par : ℕ)
    (h : Seg.lengthQ sq (facetEdgeSeg v m1 inc m2 i) = 0) :
    edgeResultFixed sq v m1 inc m2 ib i n par = (none, par) := by
  simp [edgeResultFixed, h]

theorem edgeResult_noInter (sq : ℚ → ℚ) (v m1 inc m2 : Pt) (ib : Bool)
    (i n par : ℕ)
    (h : Seg.lengthQ sq (facetEdgeSeg v m1 inc m2 i) ≠ 0)
    (hf : firstsSomeB sq v m1 inc m2 ib i n = false) :
    edgeResultFixed sq v m1 inc m2 ib i n par = (some [], par) := by
  unfold edgeResultFixed
  rw [if_neg h]
  unfold firstsSomeB at hf
  rcases hE : firstIntersections sq v m1 inc m2 ib i n with ⟨o1, o2, o3, o4⟩
  rw [hE] at hf
  cases o1 <;> cases o2 <;> cases o3 <;> cases o4 <;> simp_all

theorem edgeResult_withInter (sq : ℚ → ℚ) (v m1 inc m2 : Pt) (ib : Bool)
    (i n par : ℕ) (fpa fsa fpb fsb : Pt)
    (h : Seg.lengthQ sq (facetEdgeSeg v m1 inc m2 i) ≠ 0)
    (hfi : firstIntersections sq v m1 inc m2 ib i n =
      (some fpa, some fsa, some fpb, some fsb)) :
    edgeResultFixed sq v m1 inc m2 ib i n par =
      (some (beamLoopFixed sq (facetEdgeSeg v m1 inc m2 i).p1
          (facetEdgeVec v m1 inc m2 i) n i
          (Vec.smul (Seg.lengthQ sq (facetEdgeSeg v m1 inc m2 i) / (n : ℚ))
            (Vec.unitVector sq (facetEdgeVec v m1 inc m2 i)))
          (Pt.subPt fsa fpa) (Pt.subPt fsb fpb) 0 n fpa fpb par).1,
        (beamLoopFixed sq (facetEdgeSeg v m1 inc m2 i).p1
          (facetEdgeVec v m1 inc m2 i) n i
          (Vec.smul (Seg.lengthQ sq (facetEdgeSeg v m1 inc m2 i) / (n : ℚ))
            (Vec.unitVector sq (facetEdgeVec v m1 inc m2 i)))
          (Pt.subPt fsa fpa) (Pt.subPt fsb fpb) 0 n fpa fpb par).2) := by
  unfold edgeResultFixed
  rw [if_neg h, hfi]

theorem edgeResultE_zeroLen (sq : ℚ → ℚ) (v m1 inc m2 : Pt) (i n par : ℕ)
    (h : Seg.lengthQ sq (facetEdgeSeg v m1 inc m2 i) = 0) :
    edgeResultE sq v m1 inc m2 i n par = .ok (none, par) := by
  simp [edgeResultE, h]

theorem edgeResultE_noInter (sq : ℚ → ℚ) (v m1 inc m2 : Pt) (i n par : ℕ)
    (h : Seg.lengthQ sq (facetEdgeSeg v m1 inc m2 i) ≠ 0) (hn : n ≠ 0)
    (hf : firstsSomeB sq v m1 inc m2 false i n = false) :
    edgeResultE sq v m1 inc m2 i n par = .ok (some [], par) := by
  unfold edgeResultE
  rw [if_neg h, if_neg hn]
  unfold firstsSomeB at hf
  rcases hE : firstIntersections sq v m1 inc m2 false i n with ⟨o1, o2, o3, o4⟩
  rw [hE] at hf
  cases o1 <;> cases o2 <;> cases o3 <;> cases o4 <;> simp_all

theorem edgeResultE_withInter (sq : ℚ → ℚ) (v m1 inc m2 : Pt) (i n par : ℕ)
    (h : Seg.lengthQ sq (facetEdgeSeg v m1 inc m2 i) ≠ 0) (hn : n ≠ 0)
    (hf : firstsSomeB sq v m1 inc m2 false i n = true) :
    edgeResultE sq v m1 inc m2 i n par =
      .error "TypeError: Beam missing required arguments face_index and facet_index" := by
  unfold edgeResultE
  rw [if_neg h, if_neg hn]
  obtain ⟨a, b, c, d, hfi⟩ := (firstsSomeB_iff sq v m1 inc m2 false i n).mp hf
  rw [hfi]

theorem edgeResultE_ok_cases (sq : ℚ → ℚ) (v m1 inc m2 : Pt) (i n par : ℕ)
    (o : Option (List BeamObj)) (p : ℕ)
    (h : edgeResultE sq v m1 inc m2 i n par = .ok (o, p)) :
    p = par ∧ (o = none ∨ o = some []) := by
  simp only [edgeResultE] at h
  split_ifs at h with hz hn
  · have h2 := Except.ok.inj h
    exact ⟨(Prod.ext_iff.mp h2).2.symm, Or.inl (Prod.ext_iff.mp h2).1.symm⟩
  · rcases hF : firstIntersections sq v m1 inc m2 false i n with ⟨o1, o2, o3, o4⟩
    rw [hF] at h
    cases o1 <;> cases o2 <;> cases o3 <;> cases o4 <;> simp_all

theorem foldE_error (sq : ℚ → ℚ) (v m1 inc m2 : Pt) (e : String) :
    ∀ L : List (ℕ × ℕ),
      L.foldl (genStepE sq v m1 inc m2) (.error e) = .error e := by
  intro L
  induction L with
  | nil => rfl
  | cons ic L ih =>
    rw [List.foldl_cons]
    exact ih

theorem genStepE_ok (sq : ℚ → ℚ) (v m1 inc m2 : Pt)
    (acc : List (List BeamObj)) (par : ℕ) (ic : ℕ × ℕ)
    (out : List (List BeamObj) × ℕ)
    (h : genStepE sq v m1 inc m2 (.ok (acc, par)) ic = .ok out) :
    out.1 = acc ∨ out.1 = acc ++ [[]] := by
  simp only [genStepE] at h
  rcases hE : edgeResultE sq v m1 inc m2 ic.1 ic.2 par with e | ⟨o, p⟩
  · rw [hE] at h
    simp at h
  · obtain ⟨hp, ho⟩ := edgeResultE_ok_cases sq v m1 inc m2 ic.1 ic.2 par o p hE
    rw [hE] at h
    rcases ho with ho | ho <;> subst ho
    · exact Or.inl (congrArg Prod.fst (Except.ok.inj h)).symm
    · exact Or.inr (congrArg Prod.fst (Except.ok.inj h)).symm

theorem foldE_flatten (sq : ℚ → ℚ) (v m1 inc m2 : Pt) :
    ∀ (L : List (ℕ × ℕ)) (acc : List (List BeamObj)) (par : ℕ)
      (a : List (List BeamObj) × ℕ),
      L.foldl (genStepE sq v m1 inc m2) (.ok (acc, par)) = .ok a →
      a.1.flatten = acc.flatten := by
  intro L
  induction L with
  | nil =>
    intro acc par a h
    rw [List.foldl_nil] at h
    rw [← Except.ok.inj h]
  | cons ic L ih =>
    intro acc par a h
    rw [List.foldl_cons] at h
    rcases hstep : genStepE sq v m1 inc m2 (.ok (acc, par)) ic with e | out
    · rw [hstep, foldE_error] at h
      simp at h
    · rw [hstep] at h
      have hflat := ih out.1 out.2 a h
      rcases genStepE_ok sq v m1 inc m2 acc par ic out hstep with h1 | h1 <;>
        rw [hflat, h1] <;> simp

/-- A facet construction that completes holds no beams at all: every
`.ok` outcome of `Facet._generate_beams` consists of empty per-edge
lists, because an edge whose beam loop would run raises `TypeError`
instead of creating beams. -/
theorem generateBeamsE_ok_flatten (sq : ℚ → ℚ) (v m1 inc m2 : Pt)
    (counts : ℕ × ℕ × ℕ × ℕ) (bs : List (List BeamObj))
    (h : generateBeamsE sq v m1 inc m2 counts = .ok bs) :
    bs.flatten = [] := by
  unfold generateBeamsE at h
  rcases hF : ([(0, counts.1), (1, counts.2.1), (2, counts.2.2.1),
      (3, counts.2.2.2)]).foldl (genStepE sq v m1 inc m2) (.ok ([], 0)) with e | a
  · rw [hF] at h
    simp at h
  · rw [hF] at h
    have h2 := foldE_flatten sq v m1 inc m2 _ [] 0 a hF
    rw [← Except.ok.inj h]
    simpa using h2

theorem foldE_char (sq : ℚ → ℚ) (v m1 inc m2 : Pt) :
    ∀ (L : List (ℕ × ℕ)), (∀ ic ∈ L, ic.2 ≠ 0) →
      ∀ (acc : List (List BeamObj)) (par : ℕ),
      L.foldl (genStepE sq v m1 inc m2) (.ok (acc, par)) =
        if L.any (fun ic => edgeProductive sq v m1 inc m2 ic.1 ic.2) then
          .error "TypeError: Beam missing required arguments face_index and facet_index"
        else .ok (acc ++ L.filterMap (fun ic =>
          if Seg.lengthQ sq (facetEdgeSeg v m1 inc m2 ic.1) = 0 then none
          else some ([] : List BeamObj)), par) := by
  intro L
  induction L with
  | nil => intro _ acc par; simp
  | cons ic L ih =>
    intro hL acc par
    have hn : ic.2 ≠ 0 := hL ic (List.mem_cons_self ic L)
    have hT : ∀ j ∈ L, j.2 ≠ 0 := fun j hj => hL j (List.mem_cons_of_mem ic hj)
    rw [List.foldl_cons]
    by_cases hz : Seg.lengthQ sq (facetEdgeSeg v m1 inc m2 ic.1) = 0
    · have hprod : edgeProductive sq v m1 inc m2 ic.1 ic.2 = false := by
        simp [edgeProductive, hz]
      have hstep : genStepE sq v m1 inc m2 (.ok (acc, par)) ic = .ok (acc, par) := by
        simp [genStepE, edgeResultE_zeroLen sq v m1 inc m2 ic.1 ic.2 par hz]
      have hc : ((ic :: L).any fun j => edgeProductive sq v m1 inc m2 j.1 j.2) =
          (L.any fun j => edgeProductive sq v m1 inc m2 j.1 j.2) := by
        simp [List.any_cons, hprod]
      have hfm : List.filterMap (fun j =>
          if Seg.lengthQ sq (facetEdgeSeg v m1 inc m2 j.1) = 0 then none
          else some ([] : List BeamObj)) (ic :: L) =
          List.filterMap (fun j =>
          if Seg.lengthQ sq (facetEdgeSeg v m1 inc m2 j.1) = 0 then none
          else some ([] : List BeamObj)) L := by
        rw [List.filterMap_cons]
        simp [hz]
      rw [hstep, ih hT acc par, hc, hfm]
    · cases hf : firstsSomeB sq v m1 inc m2 false ic.1 ic.2 with
      | false =>
        have hprod : edgeProductive sq v m1 inc m2 ic.1 ic.2 = false := by
          simp [edgeProductive, hf]
        have hstep : genStepE sq v m1 inc m2 (.ok (acc, par)) ic =
            .ok (acc ++ [[]], par) := by
          simp [genStepE, edgeResultE_noInter sq v m1 inc m2 ic.1 ic.2 par hz hn hf]
        have hc : ((ic :: L).any fun j => edgeProductive sq v m1 inc m2 j.1 j.2) =
            (L.any fun j => edgeProductive sq v m1 inc m2 j.1 j.2) := by
          simp [List.any_cons, hprod]
        have hfm : List.filterMap (fun j =>
            if Seg.lengthQ sq (facetEdgeSeg v m1 inc m2 j.1) = 0 then none
            else some ([] : List BeamObj)) (ic :: L) =
            ([] : List BeamObj) :: List.filterMap (fun j =>
            if Seg.lengthQ sq (facetEdgeSeg v m1 inc m2 j.1) = 0 then none
            else some ([] : List BeamObj)) L := by
          rw [List.filterMap_cons]
          simp [hz]
        rw [hstep, ih hT (acc ++ [[]]) par, hc, hfm]
        by_cases hA : (L.any fun j => edgeProductive sq v m1 inc m2 j.1 j.2) = true
        · rw [if_pos hA, if_pos hA]
        · rw [if_neg hA, if_neg hA]
          simp
      | true =>
        have hprod : edgeProductive sq v m1 inc m2 ic.1 ic.2 = true := by
          simp [edgeProductive, hz, hf]
        have hstep : genStepE sq v m1 inc m2 (.ok (acc, par)) ic =
            .error "TypeError: Beam missing required arguments face_index and facet_index" := by
          simp [genStepE, edgeResultE_withInter sq v m1 inc m2 ic.1 ic.2 par hz hn hf]
        have hc : ((ic :: L).any fun j => edgeProductive sq v m1 inc m2 j.1 j.2) = true := by
          simp [List.any_cons, hprod]
        rw [hstep, foldE_error, hc, if_pos rfl]

/-- C4 counterexample: the facet `(0,0), (2,0), (5,-5), (5,-5)` (starboard
lateral equal to the incenter, so the MINOR_PORT edge has zero length,
and no edge is productive).  Its construction *completes* — the source
raises no exception on this input — and `get_beams()` holds only three
per-edge lists, all empty: the claim's "exactly four per-edge beam lists,
each of the requested length" fails on a run the program finishes.  On a
facet with a productive edge (here `(0,0), (4,0), (4,0), (0,3)`, whose
MINOR_PORT edge produces beams) the claimed four lists are never returned
at all: construction aborts with `TypeError`. -/
theorem beams_four_lists_counterexample :
    generateBeamsE ratSqrt ⟨0, 0, none⟩ ⟨2, 0, none⟩ ⟨5, -5, none⟩ ⟨5, -5, none⟩
      (7, 4, 4, 7) = .ok [[], [], []] ∧
    facetInitE ratSqrt ⟨0, 0, none⟩ ⟨2, 0, none⟩ ⟨5, -5, none⟩ ⟨5, -5, none⟩
      "black" "1A" (7, 4, 4, 7) =
      .ok ⟨⟨0, 0, none⟩, ⟨2, 0, none⟩, ⟨5, -5, none⟩, ⟨5, -5, none⟩,
        "black", "1A", ⟨3, -5/2, none⟩, [[], [], []]⟩ ∧
    Seg.lengthQ ratSqrt
      (facetEdgeSeg ⟨0, 0, none⟩ ⟨2, 0, none⟩ ⟨5, -5, none⟩ ⟨5, -5, none⟩ 2) = 0 ∧
    generateBeamsE ratSqrt ⟨0, 0, none⟩ ⟨4, 0, none⟩ ⟨4, 0, none⟩ ⟨0, 3, none⟩
      (7, 4, 4, 7) =
      .error "TypeError: Beam missing required arguments face_index and facet_index" := by
  refine ⟨?_, ?_, ?_, ?_⟩ <;> decide!

/-- C4 (amended): for positive beam counts, `_generate_beams` raises
`TypeError` as soon as any edge is productive (nonzero length and all four
first-beam intersections present); otherwise the construction completes
and `get_beams()` holds one *empty* list per edge of nonzero length, in
canonical edge order — a zero-length edge is skipped without appending a
list, and a nonzero-length edge with a missing intersection contributes
an empty list. -/
theorem beams_structure_amended (sq : ℚ → ℚ) (v m1 inc m2 : Pt)
    (color label : String) (c0 c1 c2 c3 : ℕ)
    (h0 : c0 ≠ 0) (h1 : c1 ≠ 0) (h2 : c2 ≠ 0) (h3 : c3 ≠ 0) :
    generateBeamsE sq v m1 inc m2 (c0, c1, c2, c3) =
      (if ([(0, c0), (1, c1), (2, c2), (3, c3)]).any (fun ic =>
            edgeProductive sq v m1 inc m2 ic.1 ic.2) then
        .error "TypeError: Beam missing required arguments face_index and facet_index"
      else .ok (([(0, c0), (1, c1), (2, c2), (3, c3)]).filterMap (fun ic =>
        if Seg.lengthQ sq (facetEdgeSeg v m1 inc m2 ic.1) = 0 then none
        else some ([] : List BeamObj)))) ∧
    (∀ f, facetInitE sq v m1 inc m2 color label (c0, c1, c2, c3) = .ok f →
      f.beams = ([(0, c0), (1, c1), (2, c2), (3, c3)]).filterMap (fun ic =>
        if Seg.lengthQ sq (facetEdgeSeg v m1 inc m2 ic.1) = 0 then none
        else some ([] : List BeamObj))) := by
  have hchar : generateBeamsE sq v m1 inc m2 (c0, c1, c2, c3) =
      (if ([(0, c0), (1, c1), (2, c2), (3, c3)]).any (fun ic =>
            edgeProductive sq v m1 inc m2 ic.1 ic.2) then
        .error "TypeError: Beam missing required arguments face_index and facet_index"
      else .ok (([(0, c0), (1, c1), (2, c2), (3, c3)]).filterMap (fun ic =>
        if Seg.lengthQ sq (facetEdgeSeg v m1 inc m2 ic.1) = 0 then none
        else some ([] : List BeamObj)))) := by
    unfold generateBeamsE
    rw [foldE_char sq v m1 inc m2 _
      (by intro ic hic; fin_cases hic <;> first | exact h0 | exact h1 | exact h2 | exact h3)
      [] 0]
    by_cases hA : ([(0, c0), (1, c1), (2, c2), (3, c3)]).any (fun ic =>
        edgeProductive sq v m1 inc m2 ic.1 ic.2) = true
    · rw [if_pos hA, if_pos hA]
    · rw [if_neg hA, if_neg hA]
      simp
  refine ⟨hchar, ?_⟩
  intro f hf
  unfold facetInitE at hf
  rw [hchar] at hf
  by_cases hA : ([(0, c0), (1, c1), (2, c2), (3, c3)]).any (fun ic =>
      edgeProductive sq v m1 inc m2 ic.1 ic.2) = true
  · rw [if_pos hA] at hf
    simp at hf
  · rw [if_neg hA] at hf
    rw [← Except.ok.inj hf]

/-- Witness for C4 (amended) at the completing facet
`(0,0), (2,0), (5,-5), (5,-5)` with counts `(7,4,4,7)`. -/
theorem beams_structure_amended_witness :
    generateBeamsE ratSqrt ⟨0, 0, none⟩ ⟨2, 0, none⟩ ⟨5, -5, none⟩ ⟨5, -5, none⟩
      (7, 4, 4, 7) =
      (if ([(0, 7), (1, 4), (2, 4), (3, 7)]).any (fun ic =>
            edgeProductive ratSqrt ⟨0, 0, none⟩ ⟨2, 0, none⟩ ⟨5, -5, none⟩
              ⟨5, -5, none⟩ ic.1 ic.2) then
        .error "TypeError: Beam missing required arguments face_index and facet_index"
      else .ok (([(0, 7), (1, 4), (2, 4), (3, 7)]).filterMap (fun ic =>
        if Seg.lengthQ ratSqrt (facetEdgeSeg ⟨0, 0, none⟩ ⟨2, 0, none⟩
            ⟨5, -5, none⟩ ⟨5, -5, none⟩ ic.1) = 0 then none
        else some ([] : List BeamObj)))) ∧
    (∀ f, facetInitE ratSqrt ⟨0, 0, none⟩ ⟨2, 0, none⟩ ⟨5, -5, none⟩
        ⟨5, -5, none⟩ "black" "1A" (7, 4, 4, 7) = .ok f →
      f.beams = ([(0, 7), (1, 4), (2, 4), (3, 7)]).filterMap (fun ic =>
        if Seg.lengthQ ratSqrt (facetEdgeSeg ⟨0, 0, none⟩ ⟨2, 0, none⟩
            ⟨5, -5, none⟩ ⟨5, -5, none⟩ ic.1) = 0 then none
        else some ([] : List BeamObj))) :=
  beams_structure_amended ratSqrt ⟨0, 0, none⟩ ⟨2, 0, none⟩ ⟨5, -5, none⟩
    ⟨5, -5, none⟩ "black" "1A" 7 4 4 7
    (by decide) (by decide) (by decide) (by decide)

/-- C2 counterexample: the facet `(0,0), (2,0), (5,-5), (0,3)` with beam
counts `(7,4,4,7)`.  Its MAJOR_STARBOARD edge has nonzero length and all
four of its first-beam intersections exist when the elements are extended
infinitely (`ignore_bounds=true`, non-parallel geometry) — so under the
claim the edge would receive its full 7 beams — but the source calls
`intersection` with the default `ignore_bounds=False`, an intersection
falls outside the parametric bounds, and the edge is emptied (an empty
list and no error: this edge is processed before the generation aborts).
Generation then proceeds to the first productive edge (MINOR_PORT) and
raises `TypeError` there. -/
theorem first_beam_ignore_bounds_counterexample :
    Seg.lengthQ ratSqrt
      (facetEdgeSeg ⟨0, 0, none⟩ ⟨2, 0, none⟩ ⟨5, -5, none⟩ ⟨0, 3, none⟩ 0) ≠ 0 ∧
    firstsSomeB ratSqrt ⟨0, 0, none⟩ ⟨2, 0, none⟩ ⟨5, -5, none⟩ ⟨0, 3, none⟩
      true 0 7 = true ∧
    firstsSomeB ratSqrt ⟨0, 0, none⟩ ⟨2, 0, none⟩ ⟨5, -5, none⟩ ⟨0, 3, none⟩
      false 0 7 = false ∧
    edgeResultE ratSqrt ⟨0, 0, none⟩ ⟨2, 0, none⟩ ⟨5, -5, none⟩ ⟨0, 3, none⟩
      0 7 0 = .ok (some [], 0) ∧
    ([(0, 7), (1, 4), (2, 4), (3, 7)] : List (ℕ × ℕ)).map (fun ic =>
      edgeProductive ratSqrt ⟨0, 0, none⟩ ⟨2, 0, none⟩ ⟨5, -5, none⟩
        ⟨0, 3, none⟩ ic.1 ic.2) = [false, false, true, false] ∧
    generateBeamsE ratSqrt ⟨0, 0, none⟩ ⟨2, 0, none⟩ ⟨5, -5, none⟩ ⟨0, 3, none⟩
      (7, 4, 4, 7) =
      .error "TypeError: Beam missing required arguments face_index and facet_index" := by
  refine ⟨?_, ?_, ?_, ?_, ?_, ?_⟩ <;> decide!

/-- C2 (amended): for every edge (of nonzero length, positive count) that
the generation processes, the four first-beam forward-ray intersections
with the axis segment and the assigned lateral bisector ray are computed
with the default bounds checks (`ignore_bounds=False`); if any of them is
missing — parallel geometry or an out-of-range parameter — the edge is
treated as empty (an empty list, no error), and if all four exist the
edge's beam loop runs and raises `TypeError` at its first beam creation,
aborting the generation (so no later edge is processed). -/
theorem first_beam_bounded_intersections (sq : ℚ → ℚ) (v m1 inc m2 : Pt)
    (i n par : ℕ) (hn : n ≠ 0)
    (hlen : Seg.lengthQ sq (facetEdgeSeg v m1 inc m2 i) ≠ 0) :
    (firstsSomeB sq v m1 inc m2 false i n = false →
      edgeResultE sq v m1 inc m2 i n par = .ok (some [], par)) ∧
    (firstsSomeB sq v m1 inc m2 false i n = true →
      edgeResultE sq v m1 inc m2 i n par =
        .error "TypeError: Beam missing required arguments face_index and facet_index") :=
  ⟨fun hf => edgeResultE_noInter sq v m1 inc m2 i n par hlen hn hf,
   fun hf => edgeResultE_withInter sq v m1 inc m2 i n par hlen hn hf⟩

/-- Witness for C2 (amended) at the counterexample facet: its
MAJOR_STARBOARD edge (a missing bounded intersection) is emptied without
error, and its MINOR_PORT edge (all four bounded intersections present)
raises `TypeError`. -/
theorem first_beam_bounded_intersections_witness :
    edgeResultE ratSqrt ⟨0, 0, none⟩ ⟨2, 0, none⟩ ⟨5, -5, none⟩ ⟨0, 3, none⟩
      0 7 0 = .ok (some [], 0) ∧
    edgeResultE ratSqrt ⟨0, 0, none⟩ ⟨2, 0, none⟩ ⟨5, -5, none⟩ ⟨0, 3, none⟩
      2 4 0 =
      .error "TypeError: Beam missing required arguments face_index and facet_index" :=
  ⟨(first_beam_bounded_intersections ratSqrt ⟨0, 0, none⟩ ⟨2, 0, none⟩
      ⟨5, -5, none⟩ ⟨0, 3, none⟩ 0 7 0 (by decide) (by decide!)).1 (by decide!),
   (first_beam_bounded_intersections ratSqrt ⟨0, 0, none⟩ ⟨2, 0, none⟩
      ⟨5, -5, none⟩ ⟨0, 3, none⟩ 2 4 0 (by decide) (by decide!)).2 (by decide!)⟩

/-- C3 (code bug): `Facet._generate_beams` calls `Beam(...)` without the
`face_index`/`facet_index` arguments that `Beam.__init__` requires (no
defaults), so constructing any facet that produces at least one beam
raises `TypeError` — no beam created during facet slicing carries owner
indices, because none is created at all.  Constructing a `Beam` directly
with the indices (as the repository's own `test_beam_ids` does) succeeds
and yields the documented identity tuple. -/
theorem facet_beam_missing_indices_bug :
    generateBeamsE ratSqrt ⟨0, 0, none⟩ ⟨2, 0, none⟩ ⟨2, 2, none⟩ ⟨0, 2, none⟩
      (1, 1, 1, 1) =
      .error "TypeError: Beam missing required arguments face_index and facet_index" ∧
    (∃ bf, beamInit ratSqrt [⟨⟨0, 0, none⟩, ⟨1, 0, none⟩⟩] 5 2
        ⟨1/2, -1/2, none⟩ ⟨1, 0⟩ 1 (some 10) (some 1) = .ok bf ∧
      bf.beamId = (10, 1, 2, 5)) := by
  refine ⟨by decide!, ⟨⟨mkBeam ratSqrt [⟨⟨0, 0, none⟩, ⟨1, 0, none⟩⟩] 5 2
    ⟨1/2, -1/2, none⟩ ⟨1, 0⟩ 1, 10, 1⟩, by decide!, by decide!⟩⟩

/-- C6 counterexample: two extents with different extents nearer per side
whose segments are *not* parallel (their carrier lines meet at `(2,2)`),
but whose bounded segment-segment intersection is out of range; the
vertex inserted into the 5-sided polygon is the midpoint `(1, 5/2)` of
the two port points, not the line intersection — so the midpoint is not
substituted "exactly when the two extent lines are parallel". -/
theorem beam_parallel_midpoint_counterexample :
    (mkBeam ratSqrt [⟨⟨-1, 2, none⟩, ⟨1, 2, none⟩⟩, ⟨⟨3, 3, none⟩, ⟨1, 1, none⟩⟩]
        0 0 ⟨0, 0, none⟩ ⟨2, 0⟩ 0).vertices =
      [⟨-1, 0, none⟩, ⟨1, 0, none⟩, ⟨1, 1, none⟩, ⟨1, 5/2, none⟩, ⟨-1, 2, none⟩] ∧
    lineIntersectionT ⟨-1, 2, none⟩ ⟨1, 2, none⟩ ⟨3, 3, none⟩ ⟨1, 1, none⟩ =
      some (3/2, 1/2) ∧
    pointAt ⟨-1, 2, none⟩ ⟨1, 2, none⟩ (3/2) = ⟨2, 2, none⟩ ∧
    (⟨1, 5/2, none⟩ : Pt) ≠ ⟨2, 2, none⟩ ∧
    (⟨-1, 2, none⟩ : Pt).midpointTo ⟨3, 3, none⟩ = ⟨1, 5/2, none⟩ := by
  refine ⟨?_, ?_, ?_, ?_, ?_⟩ <;> decide!

/-- C6 (amended): for a `Beam` built from two extents where different
extents are nearer on the port and starboard sides, construction never
fails and the polygon is the 5-sided list `[baseline_port,
baseline_starboard, nearer_starboard_point, X, nearer_port_point]`, where
`X` is the bounded segment-segment intersection of the two extents when
it exists and otherwise (parallel lines *or* out-of-range intersection)
the midpoint of the two extents' port endpoints. -/
theorem beam_two_extent_five_sided (sq : ℚ → ℚ) (e0 e1 : OSeg) (bi ei : ℕ)
    (anchor : Pt) (sv : Vec) (par : ℕ) (f ft : ℤ)
    (hdiff :
      (if Pt.distance sq (anchor.subVec (Vec.smul (1/2) sv)) e0.port <
          Pt.distance sq (anchor.subVec (Vec.smul (1/2) sv)) e1.port
        then (0 : ℕ) else 1) ≠
      (if Pt.distance sq (anchor.addVec (Vec.smul (1/2) sv)) e0.starboard <
          Pt.distance sq (anchor.addVec (Vec.smul (1/2) sv)) e1.starboard
        then (0 : ℕ) else 1)) :
    ∃ bf, beamInit sq [e0, e1] bi ei anchor sv par (some f) (some ft) = .ok bf ∧
      bf.core.vertices =
        [anchor.subVec (Vec.smul (1/2) sv), anchor.addVec (Vec.smul (1/2) sv),
         (if Pt.distance sq (anchor.addVec (Vec.smul (1/2) sv)) e0.starboard <
             Pt.distance sq (anchor.addVec (Vec.smul (1/2) sv)) e1.starboard
           then e0 else e1).starboard,
         (Seg.intersectionK e0.toSeg e1.port e1.starboard .seg false).getD
           (e0.port.midpointTo e1.port),
         (if Pt.distance sq (anchor.subVec (Vec.smul (1/2) sv)) e0.port <
             Pt.distance sq (anchor.subVec (Vec.smul (1/2) sv)) e1.port
           then e0 else e1).port] := by
  refine ⟨⟨mkBeam sq [e0, e1] bi ei anchor sv par, f, ft⟩, by simp [beamInit], ?_⟩
  show beamCalcVertices sq [e0, e1] anchor sv = _
  simp only [beamCalcVertices]
  by_cases hp : Pt.distance sq (anchor.subVec (Vec.smul (1/2) sv)) e0.port <
      Pt.distance sq (anchor.subVec (Vec.smul (1/2) sv)) e1.port <;>
    by_cases hs : Pt.distance sq (anchor.addVec (Vec.smul (1/2) sv)) e0.starboard <
      Pt.distance sq (anchor.addVec (Vec.smul (1/2) sv)) e1.starboard
  · exact absurd (by rw [if_pos hp, if_pos hs]) hdiff
  · simp only [hp, hs, if_true, if_false, eq_self_iff_true]
    rcases hI : Seg.intersectionK e0.toSeg e1.port e1.starboard .seg false with _ | q <;>
      simp [hI, hp, hs]
  · simp only [hp, hs, if_true, if_false, eq_self_iff_true]
    rcases hI : Seg.intersectionK e0.toSeg e1.port e1.starboard .seg false with _ | q <;>
      simp [hI, hp, hs]
  · exact absurd (by rw [if_neg hp, if_neg hs]) hdiff

/-- Witness for C6 (amended) at the concrete extents of the
counterexample configuration: extent 0 nearer on the port side, extent 1
nearer on the starboard side. -/
theorem beam_two_extent_five_sided_witness :
    ∃ bf, beamInit ratSqrt [⟨⟨-1, 2, none⟩, ⟨1, 2, none⟩⟩,
        ⟨⟨3, 3, none⟩, ⟨1, 1, none⟩⟩] 0 0 ⟨0, 0, none⟩ ⟨2, 0⟩ 0
        (some 0) (some 0) = .ok bf ∧
      bf.core.vertices =
        [(⟨0, 0, none⟩ : Pt).subVec (Vec.smul (1/2) ⟨2, 0⟩),
         (⟨0, 0, none⟩ : Pt).addVec (Vec.smul (1/2) ⟨2, 0⟩),
         (if Pt.distance ratSqrt ((⟨0, 0, none⟩ : Pt).addVec (Vec.smul (1/2) ⟨2, 0⟩))
             (⟨1, 2, none⟩ : Pt) <
             Pt.distance ratSqrt ((⟨0, 0, none⟩ : Pt).addVec (Vec.smul (1/2) ⟨2, 0⟩))
             (⟨1, 1, none⟩ : Pt)
           then (⟨⟨-1, 2, none⟩, ⟨1, 2, none⟩⟩ : OSeg)
           else ⟨⟨3, 3, none⟩, ⟨1, 1, none⟩⟩).starboard,
         (Seg.intersectionK (⟨⟨-1, 2, none⟩, ⟨1, 2, none⟩⟩ : OSeg).toSeg
           ⟨3, 3, none⟩ ⟨1, 1, none⟩ .seg false).getD
           ((⟨-1, 2, none⟩ : Pt).midpointTo ⟨3, 3, none⟩),
         (if Pt.distance ratSqrt ((⟨0, 0, none⟩ : Pt).subVec (Vec.smul (1/2) ⟨2, 0⟩))
             (⟨-1, 2, none⟩ : Pt) <
             Pt.distance ratSqrt ((⟨0, 0, none⟩ : Pt).subVec (Vec.smul (1/2) ⟨2, 0⟩))
             (⟨3, 3, none⟩ : Pt)
           then (⟨⟨-1, 2, none⟩, ⟨1, 2, none⟩⟩ : OSeg)
           else ⟨⟨3, 3, none⟩, ⟨1, 1, none⟩⟩).port] :=
  beam_two_extent_five_sided ratSqrt ⟨⟨-1, 2, none⟩, ⟨1, 2, none⟩⟩
    ⟨⟨3, 3, none⟩, ⟨1, 1, none⟩⟩ 0 0 ⟨0, 0, none⟩ ⟨2, 0⟩ 0 0 0 (by decide!)

theorem pyMinIdx_oracle (sq : ℚ → ℚ) (a b c : ℚ)
    (hab : OrdFaith sq a b) (hac : OrdFaith sq a c) (hbc : OrdFaith sq b c) :
    pyMinIdx (sq a) (sq b) (sq c) = pyMinIdx a b c := by
  unfold pyMinIdx
  obtain ⟨_, hab2⟩ := hab
  obtain ⟨_, hac2⟩ := hac
  obtain ⟨_, hbc2⟩ := hbc
  by_cases h : b < a
  · simp only [if_pos h, if_pos (hab2.mpr h)]
    by_cases h2 : c < b
    · simp only [if_pos h2, if_pos (hbc2.mpr h2)]
    · simp only [if_neg h2, if_neg (fun hc => h2 (hbc2.mp hc))]
  · simp only [if_neg h, if_neg (fun hc => h (hab2.mp hc))]
    by_cases h2 : c < a
    · simp only [if_pos h2, if_pos (hac2.mpr h2)]
    · simp only [if_neg h2, if_neg (fun hc => h2 (hac2.mp hc))]

theorem pyMaxIdx_oracle (sq : ℚ → ℚ) (a b c : ℚ)
    (hab : OrdFaith sq a b) (hac : OrdFaith sq a c) (hbc : OrdFaith sq b c) :
    pyMaxIdx (sq a) (sq b) (sq c) = pyMaxIdx a b c := by
  unfold pyMaxIdx
  obtain ⟨hab1, _⟩ := hab
  obtain ⟨hac1, _⟩ := hac
  obtain ⟨hbc1, _⟩ := hbc
  by_cases h : b > a
  · simp only [if_pos h, if_pos (hab1.mpr h)]
    by_cases h2 : c > b
    · simp only [if_pos h2, if_pos (hbc1.mpr h2)]
    · simp only [if_neg h2, if_neg (fun hc => h2 (hbc1.mp hc))]
  · simp only [if_neg h, if_neg (fun hc => h (hab1.mp hc))]
    by_cases h2 : c > a
    · simp only [if_pos h2, if_pos (hac1.mpr h2)]
    · simp only [if_neg h2, if_neg (fun hc => h2 (hac1.mp hc))]

theorem getCcwOrder_closed (p1 p2 p3 : Pt) (s : ℕ) :
    getCounterclockwiseOrder p1 p2 p3 s =
      if 0 < Vec.crossProduct
          (Pt.subPt (triVert p1 p2 p3 ((s + 1) % 3)) (triVert p1 p2 p3 s))
          (Pt.subPt (triVert p1 p2 p3 ((s + 2) % 3)) (triVert p1 p2 p3 s))
      then [s, (s + 2) % 3, (s + 1) % 3]
      else [s, (s + 1) % 3, (s + 2) % 3] := by
  unfold getCounterclockwiseOrder
  by_cases h : 0 < Vec.crossProduct
      (Pt.subPt (triVert p1 p2 p3 ((s + 1) % 3)) (triVert p1 p2 p3 s))
      (Pt.subPt (triVert p1 p2 p3 ((s + 2) % 3)) (triVert p1 p2 p3 s)) <;>
    simp [h]

/-- C1 counterexample: the APEXWARD 3-4-5 triangle `(0,0), (4,0), (0,3)`
with apex `(0,0)`.  The starting vertex is index 0 (nearest to apex, with
an order-faithful oracle at every compared pair), the cross product of
the first two edge vectors from it is positive — so the spec's rule keeps
the cyclic order `[p1, p2, p3]` — but the `ordered_vertices` list that
`_create_facets` computes (and it *is* computed: it precedes the `Facet`
constructions) is `[0, 2, 1]`, i.e. primary vertices `[p1, p3, p2]`: the
code swaps the last two exactly when the order is already
counterclockwise.  The `Facet` constructions that follow then raise
`TypeError`, so `facets()` never returns any list — in particular not the
counterclockwise one the claim asserts. -/
theorem facets_ccw_spec_counterexample :
    orderedVerts ratSqrt ⟨0, 0, none⟩ ⟨4, 0, none⟩ ⟨0, 3, none⟩ ⟨0, 0, none⟩ =
      [0, 2, 1] ∧
    ((orderedVerts ratSqrt ⟨0, 0, none⟩ ⟨4, 0, none⟩ ⟨0, 3, none⟩
        ⟨0, 0, none⟩).map (triVert ⟨0, 0, none⟩ ⟨4, 0, none⟩ ⟨0, 3, none⟩) =
      [⟨0, 0, none⟩, ⟨0, 3, none⟩, ⟨4, 0, none⟩]) ∧
    determineOrientation ratSqrt ⟨0, 0, none⟩ ⟨4, 0, none⟩ ⟨0, 3, none⟩
      ⟨0, 0, none⟩
      (calcIncenter ratSqrt ⟨0, 0, none⟩ ⟨4, 0, none⟩ ⟨0, 3, none⟩) =
      .apexward ∧
    amendedStartIdx ratSqrt ⟨0, 0, none⟩ ⟨4, 0, none⟩ ⟨0, 3, none⟩
      ⟨0, 0, none⟩ = 0 ∧
    OrdFaith ratSqrt ((⟨0, 0, none⟩ : Pt).dist2 ⟨0, 0, none⟩)
      ((⟨4, 0, none⟩ : Pt).dist2 ⟨0, 0, none⟩) ∧
    OrdFaith ratSqrt ((⟨0, 0, none⟩ : Pt).dist2 ⟨0, 0, none⟩)
      ((⟨0, 3, none⟩ : Pt).dist2 ⟨0, 0, none⟩) ∧
    OrdFaith ratSqrt ((⟨4, 0, none⟩ : Pt).dist2 ⟨0, 0, none⟩)
      ((⟨0, 3, none⟩ : Pt).dist2 ⟨0, 0, none⟩) ∧
    specCcwOrder ⟨0, 0, none⟩ ⟨4, 0, none⟩ ⟨0, 3, none⟩ 0 = [0, 1, 2] ∧
    ([0, 1, 2].map (triVert ⟨0, 0, none⟩ ⟨4, 0, none⟩ ⟨0, 3, none⟩) =
      [⟨0, 0, none⟩, ⟨4, 0, none⟩, ⟨0, 3, none⟩]) ∧
    ((⟨0, 3, none⟩ : Pt) ≠ ⟨4, 0, none⟩) ∧
    createFacetsE ratSqrt ⟨0, 0, none⟩ ⟨4, 0, none⟩ ⟨0, 3, none⟩ ⟨0, 0, none⟩
      1 (7, 4, 4, 7) =
      .error "TypeError: Beam missing required arguments face_index and facet_index" := by
  refine ⟨?_, ?_, ?_, ?_, ?_, ?_, ?_, ?_, ?_, ?_, ?_⟩ <;> decide!

/-- C1 (amended): `_create_facets` picks the starting vertex as
nearest-to-apex for APEXWARD and farthest for NADIRWARD (on real
distances, given an order-faithful oracle at the compared pairs), and
computes its ordered vertex walk with the last two vertices swapped
exactly when the cross product of the first two edge vectors from the
starting vertex is *positive*, i.e. in clockwise order by the
cross-product sign convention (the spec says the opposite); the `Facet`
constructions it then attempts — each from its vertex as primary, the
incenter, and the two adjacent edge midpoints as laterals, in label order
A..C / D..F — run in exactly that order with Python's failure semantics
(the first exception aborts `facets()`, see C3). -/
theorem facets_order_amended (sq : ℚ → ℚ) (p1 p2 p3 apex : Pt) (tid : ℕ)
    (counts : ℕ × ℕ × ℕ × ℕ)
    (hab : OrdFaith sq (Pt.dist2 p1 apex) (Pt.dist2 p2 apex))
    (hac : OrdFaith sq (Pt.dist2 p1 apex) (Pt.dist2 p3 apex))
    (hbc : OrdFaith sq (Pt.dist2 p2 apex) (Pt.dist2 p3 apex)) :
    orderedVerts sq p1 p2 p3 apex = amendedOrder sq p1 p2 p3 apex ∧
    createFacetsE sq p1 p2 p3 apex tid counts =
      ((amendedOrder sq p1 p2 p3 apex).zip
        (if determineOrientation sq p1 p2 p3 apex
            (calcIncenter sq p1 p2 p3) = .apexward
         then ["A", "B", "C"] else ["D", "E", "F"])).mapM (fun il =>
        facetInitE sq (triVert p1 p2 p3 il.1)
          ((triMidpoints p1 p2 p3).getD (il.1 % 3) default)
          (calcIncenter sq p1 p2 p3)
          ((triMidpoints p1 p2 p3).getD ((il.1 + 2) % 3) default)
          (facetColorOf (triVert p1 p2 p3 il.1))
          (toString tid ++ il.2) counts) := by
  have hmin : pyMinIdx (Pt.distance sq p1 apex) (Pt.distance sq p2 apex)
      (Pt.distance sq p3 apex) =
      pyMinIdx (Pt.dist2 p1 apex) (Pt.dist2 p2 apex) (Pt.dist2 p3 apex) :=
    pyMinIdx_oracle sq _ _ _ hab hac hbc
  have hmax : pyMaxIdx (Pt.distance sq p1 apex) (Pt.distance sq p2 apex)
      (Pt.distance sq p3 apex) =
      pyMaxIdx (Pt.dist2 p1 apex) (Pt.dist2 p2 apex) (Pt.dist2 p3 apex) :=
    pyMaxIdx_oracle sq _ _ _ hab hac hbc
  have hord : orderedVerts sq p1 p2 p3 apex = amendedOrder sq p1 p2 p3 apex := by
    simp only [orderedVerts, amendedOrder, amendedStartIdx]
    rw [getCcwOrder_closed, hmin, hmax]
  refine ⟨hord, ?_⟩
  simp only [createFacetsE]
  rw [hord]

/-- Witness for C1 (amended) at the 3-4-5 triangle with apex `(0,0)`. -/
theorem facets_order_amended_witness :
    orderedVerts ratSqrt ⟨0, 0, none⟩ ⟨4, 0, none⟩ ⟨0, 3, none⟩ ⟨0, 0, none⟩ =
      amendedOrder ratSqrt ⟨0, 0, none⟩ ⟨4, 0, none⟩ ⟨0, 3, none⟩
        ⟨0, 0, none⟩ ∧
    createFacetsE ratSqrt ⟨0, 0, none⟩ ⟨4, 0, none⟩ ⟨0, 3, none⟩ ⟨0, 0, none⟩
      1 (1, 1, 1, 1) =
      ((amendedOrder ratSqrt ⟨0, 0, none⟩ ⟨4, 0, none⟩ ⟨0, 3, none⟩
        ⟨0, 0, none⟩).zip
        (if determineOrientation ratSqrt ⟨0, 0, none⟩ ⟨4, 0, none⟩
            ⟨0, 3, none⟩ ⟨0, 0, none⟩
            (calcIncenter ratSqrt ⟨0, 0, none⟩ ⟨4, 0, none⟩ ⟨0, 3, none⟩) =
            .apexward
         then ["A", "B", "C"] else ["D", "E", "F"])).mapM (fun il =>
        facetInitE ratSqrt (triVert ⟨0, 0, none⟩ ⟨4, 0, none⟩ ⟨0, 3, none⟩ il.1)
          ((triMidpoints ⟨0, 0, none⟩ ⟨4, 0, none⟩ ⟨0, 3, none⟩).getD
            (il.1 % 3) default)
          (calcIncenter ratSqrt ⟨0, 0, none⟩ ⟨4, 0, none⟩ ⟨0, 3, none⟩)
          ((triMidpoints ⟨0, 0, none⟩ ⟨4, 0, none⟩ ⟨0, 3, none⟩).getD
            ((il.1 + 2) % 3) default)
          (facetColorOf (triVert ⟨0, 0, none⟩ ⟨4, 0, none⟩ ⟨0, 3, none⟩ il.1))
          (toString 1 ++ il.2) (1, 1, 1, 1)) :=
  facets_order_amended ratSqrt ⟨0, 0, none⟩ ⟨4, 0, none⟩ ⟨0, 3, none⟩
    ⟨0, 0, none⟩ 1 (1, 1, 1, 1) (by decide!) (by decide!) (by decide!)

theorem beamLoopFixed_get (sq : ℚ → ℚ) (E : Pt) (V : Vec) (n i : ℕ)
    (sv aS bS : Vec) :
    ∀ (r j k : ℕ) (pA pB : Pt) (par : ℕ), j < r → par ≤ 1 →
      (beamLoopFixed sq E V n i sv aS bS k r pA pB par).1.get? j =
        some (mkBeam sq
          [⟨iterAdd pA aS j, iterAdd pA aS (j + 1)⟩,
           ⟨iterAdd pB bS j, iterAdd pB bS (j + 1)⟩]
          (k + j) i
          ((E.addVec (Vec.smul ((((k + j) : ℕ) : ℚ) / (n : ℚ)) V)).midpointTo
            (E.addVec (Vec.smul (((((k + j) : ℕ) : ℚ) + 1) / (n : ℚ)) V)))
          sv ((par + j) % 2)) := by
  intro r
  induction r with
  | zero => intro j k pA pB par hj hp; omega
  | succ r ih =>
    intro j k pA pB par hj hp
    cases j with
    | zero =>
      show some _ = some _
      have hpar0 : (par + 0) % 2 = par := by omega
      have hk0 : k + 0 = k := by omega
      rw [hpar0, hk0]
      rfl
    | succ j =>
      show (beamLoopFixed sq E V n i sv aS bS (k + 1) r (pA.addVec aS)
        (pB.addVec bS) (1 - par)).1.get? j = _
      rw [ih j (k + 1) (pA.addVec aS) (pB.addVec bS) (1 - par)
        (by omega) (by omega)]
      rw [iterAdd_shift pA aS j, iterAdd_shift pA aS (j + 1),
        iterAdd_shift pB bS j, iterAdd_shift pB bS (j + 1)]
      have hk : k + 1 + j = k + (j + 1) := by omega
      have hpar : (1 - par + j) % 2 = (par + (j + 1)) % 2 := by omega
      rw [hk, hpar]

theorem edgeResult_parity (sq : ℚ → ℚ) (v m1 inc m2 : Pt) (ib : Bool)
    (i n par : ℕ) (hp : par ≤ 1) (o : Option (List BeamObj)) (p2 : ℕ)
    (hE : edgeResultFixed sq v m1 inc m2 ib i n par = (o, p2)) :
    p2 = (par + (o.getD []).length) % 2 ∧ p2 ≤ 1 ∧
    ∀ j b, (o.getD []).get? j = some b → b.parity = (par + j) % 2 := by
  by_cases hlen : Seg.lengthQ sq (facetEdgeSeg v m1 inc m2 i) = 0
  · rw [edgeResult_zeroLen sq v m1 inc m2 ib i n par hlen] at hE
    rw [Prod.ext_iff] at hE
    obtain ⟨ho, hp2⟩ := hE
    subst ho; subst hp2
    refine ⟨by simp; omega, by omega, ?_⟩
    intro j b hjb
    simp at hjb
  · cases hfB : firstsSomeB sq v m1 inc m2 ib i n with
    | false =>
      rw [edgeResult_noInter sq v m1 inc m2 ib i n par hlen hfB] at hE
      rw [Prod.ext_iff] at hE
      obtain ⟨ho, hp2⟩ := hE
      subst ho; subst hp2
      refine ⟨by simp; omega, by omega, ?_⟩
      intro j b hjb
      simp at hjb
    | true =>
      obtain ⟨a, b', c, d, hfi⟩ := (firstsSomeB_iff sq v m1 inc m2 ib i n).mp hfB
      rw [edgeResult_withInter sq v m1 inc m2 ib i n par a b' c d hlen hfi] at hE
      rw [Prod.ext_iff] at hE
      obtain ⟨ho, hp2⟩ := hE
      subst ho; subst hp2
      refine ⟨?_, by simp [beamLoopFixed_parityOut sq _ _ n i _ _ _ n 0 a c par hp]; omega, ?_⟩
      · simp [beamLoopFixed_parityOut sq _ _ n i _ _ _ n 0 a c par hp,
          beamLoopFixed_length]
      · intro j b hjb
        by_cases hj : j < n
        · rw [Option.getD_some] at hjb
          rw [beamLoopFixed_get sq _ _ n i _ _ _ n j 0 a c par hj hp] at hjb
          injection hjb with hb
          rw [← hb]
          rfl
        · exfalso
          rw [Option.getD_some] at hjb
          have : (beamLoopFixed sq (facetEdgeSeg v m1 inc m2 i).p1
              (facetEdgeVec v m1 inc m2 i) n i
              (Vec.smul (Seg.lengthQ sq (facetEdgeSeg v m1 inc m2 i) / (n : ℚ))
                (Vec.unitVector sq (facetEdgeVec v m1 inc m2 i)))
              (Pt.subPt b' a) (Pt.subPt d c) 0 n a c par).1.get? j = none := by
            rw [List.get?_eq_none]
            rw [beamLoopFixed_length]
            omega
          rw [this] at hjb
          cases hjb

theorem foldFlatParity (sq : ℚ → ℚ) (v m1 inc m2 : Pt) (ib : Bool) :
    ∀ (L : List (ℕ × ℕ)) (acc : List (List BeamObj)) (par : ℕ), par ≤ 1 →
      par = acc.flatten.length % 2 →
      (∀ j b, acc.flatten.get? j = some b → b.parity = j % 2) →
      ∀ j b, ((L.foldl (genStepFixed sq v m1 inc m2 ib) (acc, par)).1).flatten.get? j
          = some b → b.parity = j % 2 := by
  intro L
  induction L with
  | nil => intro acc par hp hmod hacc j b; exact hacc j b
  | cons ic L ih =>
    intro acc par hp hmod hacc j b
    rcases hE : edgeResultFixed sq v m1 inc m2 ib ic.1 ic.2 par with ⟨o, p2⟩
    obtain ⟨hout, hle, hbeams⟩ :=
      edgeResult_parity sq v m1 inc m2 ib ic.1 ic.2 par hp o p2 hE
    rw [List.foldl_cons]
    cases o with
    | none =>
      rw [show genStepFixed sq v m1 inc m2 ib (acc, par) ic = (acc, p2) by
        simp [genStepFixed, hE]]
      apply ih acc p2 hle _ hacc
      simp only [Option.getD_none, List.length_nil, Nat.add_zero] at hout
      omega
    | some l =>
      rw [show genStepFixed sq v m1 inc m2 ib (acc, par) ic = (acc ++ [l], p2) by
        simp [genStepFixed, hE]]
      apply ih (acc ++ [l]) p2 hle
      · rw [hout]
        simp only [List.flatten_append, List.flatten_cons, List.flatten_nil,
          List.append_nil, List.length_append, Option.getD_some]
        omega
      · intro j' b' hj'
        simp only [List.flatten_append, List.flatten_cons, List.flatten_nil,
          List.append_nil] at hj'
        by_cases hlt : j' < acc.flatten.length
        · rw [List.get?_append hlt] at hj'
          exact hacc j' b' hj'
        · rw [List.get?_append_right (by omega)] at hj'
          have := hbeams (j' - acc.flatten.length) b' (by simpa using hj')
          rw [this]
          omega

/-- C9 (code bug): in the running source no facet ever holds a created
beam — a construction that completes holds only empty per-edge lists,
and an edge that would create beams raises `TypeError` at its first
`Beam(...)` call (the C3 bug) — so the claimed parity sequence over
created beams never materialises.  The slicing loop's parity logic
itself, taken with that one call site repaired, does implement the
claim: the running parity starts at 0 and flips after every created
beam, across all four edges in canonical order without resetting per
edge, and `get_fill_color_multiplier()` is `1.2` for parity 0 and `0.8`
for parity 1 — so the `k`-th beam created within a facet has parity
`k % 2` and multiplier `1.2` for even `k`, `0.8` for odd `k`. -/
theorem beam_parity_alternation (sq : ℚ → ℚ) (v m1 inc m2 : Pt)
    (counts : ℕ × ℕ × ℕ × ℕ) (k : ℕ)
    (hk : k < (allBeamsFlatFixed sq v m1 inc m2 counts).length) :
    (∀ bs, generateBeamsE sq v m1 inc m2 counts = .ok bs → bs.flatten = []) ∧
    ∃ b, (allBeamsFlatFixed sq v m1 inc m2 counts).get? k = some b ∧
      b.parity = k % 2 ∧
      getFillColorMultiplier b = if k % 2 = 0 then 6/5 else 4/5 := by
  refine ⟨fun bs hbs => generateBeamsE_ok_flatten sq v m1 inc m2 counts bs hbs, ?_⟩
  have hb : (allBeamsFlatFixed sq v m1 inc m2 counts).get? k =
      some ((allBeamsFlatFixed sq v m1 inc m2 counts).get ⟨k, hk⟩) :=
    List.get?_eq_get hk
  have hpar : ((allBeamsFlatFixed sq v m1 inc m2 counts).get ⟨k, hk⟩).parity =
      k % 2 :=
    foldFlatParity sq v m1 inc m2 false
      [(0, counts.1), (1, counts.2.1), (2, counts.2.2.1), (3, counts.2.2.2)]
      [] 0 (by omega) (by simp) (by intro j bb hj; simp at hj) k _ hb
  refine ⟨_, hb, hpar, ?_⟩
  show (if ((allBeamsFlatFixed sq v m1 inc m2 counts).get ⟨k, hk⟩).parity = 0
    then (6/5 : ℚ) else 4/5) = _
  rw [hpar]

theorem subPt_addVec (p : Pt) (v : Vec) : Pt.subPt (p.addVec v) p = v := by
  cases v
  simp only [Pt.subPt, Pt.addVec, Vec.mk.injEq]
  constructor <;> ring

theorem interK_eq_pointAt (r : Ray) (o1 o2 : Pt) (kk : ElemKind)
    (ib : Bool) (p : Pt) (h : Ray.intersectionK r o1 o2 kk ib = some p) :
    ∃ t1 t2, lineIntersectionT r.p1 r.p2 o1 o2 = some (t1, t2) ∧
      p = pointAt r.p1 r.p2 t1 := by
  unfold Ray.intersectionK at h
  rcases hE : lineIntersectionT r.p1 r.p2 o1 o2 with _ | ⟨t1, t2⟩ <;>
    simp only [hE] at h
  · cases h
  · refine ⟨t1, t2, rfl, ?_⟩
    split_ifs at h <;> first
      | exact (Option.some.inj h).symm
      | cases h

theorem interK_ignore (r : Ray) (o1 o2 : Pt) (kk : ElemKind) (ib : Bool)
    (p : Pt) (h : Ray.intersectionK r o1 o2 kk ib = some p) :
    Ray.intersectionK r o1 o2 kk true = some p := by
  obtain ⟨t1, t2, hE, hp⟩ := interK_eq_pointAt r o1 o2 kk ib p h
  unfold Ray.intersectionK
  simp only [hE, if_pos, hp]

theorem interK_color_none (r : Ray) (o1 o2 : Pt) (kk : ElemKind) (ib : Bool)
    (p : Pt) (h : Ray.intersectionK r o1 o2 kk ib = some p) :
    p.color = none := by
  obtain ⟨t1, _, _, hp⟩ := interK_eq_pointAt r o1 o2 kk ib p h
  rw [hp]
  rfl

theorem interK_shift (E : Pt) (u w : Vec) (o1 o2 : Pt) (kk : ElemKind)
    (ib : Bool) (p : Pt)
    (h : Ray.intersectionK ⟨E, E.addVec u⟩ o1 o2 kk ib = some p) :
    Ray.intersectionK ⟨E.addVec w, (E.addVec w).addVec u⟩ o1 o2 kk true =
      some (p.addVec (linShift u w o1 o2)) := by
  obtain ⟨t1, t2, hL, hp⟩ := interK_eq_pointAt ⟨E, E.addVec u⟩ o1 o2 kk ib p h
  unfold lineIntersectionT at hL
  simp only [subPt_addVec] at hL
  by_cases hden : |Vec.crossProduct u (Pt.subPt o2 o1)| < eps
  · rw [if_pos hden] at hL
    cases hL
  · rw [if_neg hden] at hL
    injection hL with hL1
    injection hL1 with ht1 ht2
    unfold Ray.intersectionK lineIntersectionT
    simp only [subPt_addVec]
    rw [if_neg hden]
    simp only [if_pos]
    refine congrArg some ?_
    rw [hp, ← ht1]
    simp only [pointAt, Pt.addVec, linShift, Vec.sub, Vec.smul, Pt.subPt,
      Vec.crossProduct, Pt.mk.injEq]
    refine ⟨by ring, by ring, trivial⟩

theorem linShift_smul (u w : Vec) (o1 o2 : Pt) (c : ℚ) :
    linShift u (Vec.smul c w) o1 o2 = Vec.smul c (linShift u w o1 o2) := by
  simp only [linShift, Vec.sub, Vec.smul, Pt.subPt, Vec.crossProduct,
    Vec.mk.injEq]
  constructor <;> ring

theorem smul_div_eq (V : Vec) (a b : ℚ) :
    Vec.smul (a / b) V = Vec.smul a (Vec.divQ V b) := by
  simp only [Vec.smul, Vec.divQ, Vec.mk.injEq]
  constructor <;> ring

theorem iterAdd_addVec_smul (x y : ℚ) (v : Vec) :
    ∀ j : ℕ, iterAdd ⟨x, y, none⟩ v j =
      Pt.addVec ⟨x, y, none⟩ (Vec.smul (j : ℚ) v) := by
  intro j
  induction j with
  | zero =>
    simp only [iterAdd, Pt.addVec, Vec.smul, Nat.cast_zero, Pt.mk.injEq]
    refine ⟨by ring, by ring, trivial⟩
  | succ j ih =>
    simp only [iterAdd, ih, Pt.addVec, Vec.smul, Pt.mk.injEq, Nat.cast_succ]
    refine ⟨by ring, by ring, ?_⟩
    trivial

/-- Witness for C9 at a square facet with beam counts `(1,1,1,1)`: the
second beam created (index 1) in the repaired generation has parity 1
and multiplier `0.8`, while the source's generation on the same facet
never creates it (a completed construction would hold no beams). -/
theorem beam_parity_alternation_witness :
    (∀ bs, generateBeamsE ratSqrt ⟨0, 0, none⟩ ⟨2, 0, none⟩ ⟨2, 2, none⟩
      ⟨0, 2, none⟩ (1, 1, 1, 1) = .ok bs → bs.flatten = []) ∧
    ∃ b, (allBeamsFlatFixed ratSqrt ⟨0, 0, none⟩ ⟨2, 0, none⟩ ⟨2, 2, none⟩
        ⟨0, 2, none⟩ (1, 1, 1, 1)).get? 1 = some b ∧
      b.parity = 1 % 2 ∧
      getFillColorMultiplier b = if 1 % 2 = 0 then 6/5 else 4/5 :=
  beam_parity_alternation ratSqrt ⟨0, 0, none⟩ ⟨2, 0, none⟩ ⟨2, 2, none⟩
    ⟨0, 2, none⟩ (1, 1, 1, 1) 1 (by decide!)

/-- C5 (code bug): the stride optimization never runs in the source —
for any edge whose four first-beam intersections exist (the claim's
scenario), the beam loop raises `TypeError` at its very first
`Beam(...)` call (the C3 bug), so no intersection after the first is
ever derived, by stride or otherwise.  The loop's stride logic itself,
with that one call site repaired, does implement the claim: for every
beam index `k`, the stride-based incremental intersections (near values
of beam `k` equal the far values of beam `k-1`, beam 0 seeded from the
first beam's near values, far = near + the once-computed axis/bisector
stride vectors) agree *exactly* (hence within `1e-6`) with an
independent direct re-solve of the forward-ray/axis and
forward-ray/bisector intersections for that same beam (the elements
extended infinitely). -/
theorem stride_matches_resolve (sq : ℚ → ℚ) (v m1 inc m2 : Pt)
    (i n par k : ℕ) (hk : k < n) (hpar : par ≤ 1)
    (hlen : Seg.lengthQ sq (facetEdgeSeg v m1 inc m2 i) ≠ 0)
    (hf : firstsSomeB sq v m1 inc m2 false i n = true) :
    edgeResultE sq v m1 inc m2 i n par =
      .error "TypeError: Beam missing required arguments face_index and facet_index" ∧
    ∃ bs p2 b, edgeResultFixed sq v m1 inc m2 false i n par = (some bs, p2) ∧
      bs.get? k = some b ∧
      ∃ pa pa2 pb pb2,
        b.extents = [⟨pa, pa2⟩, ⟨pb, pb2⟩] ∧
        axisResolve sq v m1 inc m2 i ((k : ℚ) / (n : ℚ)) = some pa ∧
        axisResolve sq v m1 inc m2 i (((k : ℚ) + 1) / (n : ℚ)) = some pa2 ∧
        bisectorResolve sq v m1 inc m2 i ((k : ℚ) / (n : ℚ)) = some pb ∧
        bisectorResolve sq v m1 inc m2 i (((k : ℚ) + 1) / (n : ℚ)) = some pb2 := by
  refine ⟨edgeResultE_withInter sq v m1 inc m2 i n par hlen (by omega) hf, ?_⟩
  obtain ⟨fpa, fsa, fpb, fsb, hfi⟩ :=
    (firstsSomeB_iff sq v m1 inc m2 false i n).mp hf
  have hfi' := hfi
  simp only [firstIntersections, Ray.fromPointAndDirection, Prod.mk.injEq]
    at hfi'
  obtain ⟨h1, h2, h3, h4⟩ := hfi'
  obtain ⟨fax, fay, fac⟩ := fpa
  obtain ⟨fbx, fby, fbc⟩ := fpb
  have hca : fac = none := interK_color_none _ _ _ _ _ _ h1
  have hcb : fbc = none := interK_color_none _ _ _ _ _ _ h3
  subst hca
  subst hcb
  refine ⟨_, _, _,
    edgeResult_withInter sq v m1 inc m2 false i n par _ fsa _ fsb hlen hfi,
    beamLoopFixed_get sq _ _ n i _ _ _ n k 0 ⟨fax, fay, none⟩ ⟨fbx, fby, none⟩
      par hk hpar, ?_⟩
  refine ⟨_, _, _, _, rfl, ?_, ?_, ?_, ?_⟩
  · have h2' := interK_ignore _ _ _ _ _ _ h2
    have hshift := interK_shift _ _
      (Vec.divQ (facetEdgeVec v m1 inc m2 i) (n : ℚ)) _ _ _ _ _ h1
    have hsa := Option.some.inj (h2'.symm.trans hshift)
    rw [hsa, subPt_addVec, iterAdd_addVec_smul]
    simp only [axisResolve, resolveAt, Ray.fromPointAndDirection]
    rw [interK_shift _ _ (Vec.smul ((k : ℚ) / (n : ℚ))
      (facetEdgeVec v m1 inc m2 i)) _ _ _ _ _ h1]
    rw [smul_div_eq, linShift_smul]
  · have h2' := interK_ignore _ _ _ _ _ _ h2
    have hshift := interK_shift _ _
      (Vec.divQ (facetEdgeVec v m1 inc m2 i) (n : ℚ)) _ _ _ _ _ h1
    have hsa := Option.some.inj (h2'.symm.trans hshift)
    rw [hsa, subPt_addVec, iterAdd_addVec_smul]
    simp only [axisResolve, resolveAt, Ray.fromPointAndDirection]
    rw [interK_shift _ _ (Vec.smul (((k : ℚ) + 1) / (n : ℚ))
      (facetEdgeVec v m1 inc m2 i)) _ _ _ _ _ h1]
    rw [smul_div_eq, linShift_smul]
    rw [show (((k + 1 : ℕ)) : ℚ) = (k : ℚ) + 1 by push_cast; ring]
  · have h4' := interK_ignore _ _ _ _ _ _ h4
    have hshift := interK_shift _ _
      (Vec.divQ (facetEdgeVec v m1 inc m2 i) (n : ℚ)) _ _ _ _ _ h3
    have hsb := Option.some.inj (h4'.symm.trans hshift)
    rw [hsb, subPt_addVec, iterAdd_addVec_smul]
    simp only [bisectorResolve, resolveAt, Ray.fromPointAndDirection]
    rw [interK_shift _ _ (Vec.smul ((k : ℚ) / (n : ℚ))
      (facetEdgeVec v m1 inc m2 i)) _ _ _ _ _ h3]
    rw [smul_div_eq, linShift_smul]
  · have h4' := interK_ignore _ _ _ _ _ _ h4
    have hshift := interK_shift _ _
      (Vec.divQ (facetEdgeVec v m1 inc m2 i) (n : ℚ)) _ _ _ _ _ h3
    have hsb := Option.some.inj (h4'.symm.trans hshift)
    rw [hsb, subPt_addVec, iterAdd_addVec_smul]
    simp only [bisectorResolve, resolveAt, Ray.fromPointAndDirection]
    rw [interK_shift _ _ (Vec.smul (((k : ℚ) + 1) / (n : ℚ))
      (facetEdgeVec v m1 inc m2 i)) _ _ _ _ _ h3]
    rw [smul_div_eq, linShift_smul]
    rw [show (((k + 1 : ℕ)) : ℚ) = (k : ℚ) + 1 by push_cast; ring]

/-- Witness for C5 at a square facet's MAJOR_STARBOARD edge with beam
count 2, beam index 1: the source raises `TypeError` on this edge, and
in the repaired loop the stride-propagated extents of the second beam
coincide with the direct re-solves at `t = 1/2` and `t = 1`. -/
theorem stride_matches_resolve_witness :
    edgeResultE ratSqrt ⟨0, 0, none⟩ ⟨2, 0, none⟩ ⟨2, 2, none⟩
      ⟨0, 2, none⟩ 0 2 0 =
      .error "TypeError: Beam missing required arguments face_index and facet_index" ∧
    ∃ bs p2 b, edgeResultFixed ratSqrt ⟨0, 0, none⟩ ⟨2, 0, none⟩ ⟨2, 2, none⟩
        ⟨0, 2, none⟩ false 0 2 0 = (some bs, p2) ∧
      bs.get? 1 = some b ∧
      ∃ pa pa2 pb pb2,
        b.extents = [⟨pa, pa2⟩, ⟨pb, pb2⟩] ∧
        axisResolve ratSqrt ⟨0, 0, none⟩ ⟨2, 0, none⟩ ⟨2, 2, none⟩
          ⟨0, 2, none⟩ 0 (((1 : ℕ) : ℚ) / ((2 : ℕ) : ℚ)) = some pa ∧
        axisResolve ratSqrt ⟨0, 0, none⟩ ⟨2, 0, none⟩ ⟨2, 2, none⟩
          ⟨0, 2, none⟩ 0 ((((1 : ℕ) : ℚ) + 1) / ((2 : ℕ) : ℚ)) = some pa2 ∧
        bisectorResolve ratSqrt ⟨0, 0, none⟩ ⟨2, 0, none⟩ ⟨2, 2, none⟩
          ⟨0, 2, none⟩ 0 (((1 : ℕ) : ℚ) / ((2 : ℕ) : ℚ)) = some pb ∧
        bisectorResolve ratSqrt ⟨0, 0, none⟩ ⟨2, 0, none⟩ ⟨2, 2, none⟩
          ⟨0, 2, none⟩ 0 ((((1 : ℕ) : ℚ) + 1) / ((2 : ℕ) : ℚ)) = some pb2 :=
  stride_matches_resolve ratSqrt ⟨0, 0, none⟩ ⟨2, 0, none⟩ ⟨2, 2, none⟩
    ⟨0, 2, none⟩ 0 2 0 1 (by omega) (by omega) (by decide!) (by decide!)

end Luminary
